import Mathlib

/-!
Verification development for the competitor-intel monitoring core.

The definitions below are a shallow embedding of the change-detection and
price-extraction pipeline:

* `app/services/differ.server.ts` — line-set diffing, summaries, significance;
* `src/services/differ.js` — the legacy differ (embedded under `Legacy`);
* `app/services/priceExtractor.server.ts` — price parsing, extraction
  strategies, confidence-adjusted thresholds, price deltas;
* `app/services/analyzer.server.ts` — degradation wrapper around the
  external LLM analyzer (the external call itself is an oracle input);
* `app/services/monitor.server.ts` — the `checkPage` cycle over an explicit
  per-page store state (the Prisma store is modelled as a list of snapshot
  and change records; timestamps are naturals supplied by the caller).

Machine numbers of the source (JS `number`) are modelled as rationals `ℚ`;
the concrete values in all claims are exactly representable.
-/

namespace CompetitorIntel

/-! String primitives are modelled over the character lists underlying Lean
strings, mirroring the JavaScript string methods the source uses. -/

/-- JavaScript `String.prototype.split` with a one-character separator,
on character lists; `"".split(sep)` is `[""]`. -/
def splitOnChar (sep : Char) : List Char → List (List Char)
  | [] => [[]]
  | c :: rest =>
    if c == sep then [] :: splitOnChar sep rest
    else
      match splitOnChar sep rest with
      | h :: t => (c :: h) :: t
      | [] => [[c]]

/-- JavaScript `String.prototype.split` with a one-character separator. -/
def jsSplit (s : String) (sep : Char) : List String :=
  (splitOnChar sep s.data).map (fun cs => String.mk cs)

/-- Whitespace removal from both ends of a character list. -/
def trimChars (cs : List Char) : List Char :=
  ((cs.dropWhile Char.isWhitespace).reverse.dropWhile Char.isWhitespace).reverse

/-- JavaScript `String.prototype.trim`. -/
def jsTrim (s : String) : String :=
  String.mk (trimChars s.data)

/-- JavaScript `String.prototype.toLowerCase` (ASCII case mapping). -/
def jsToLower (s : String) : String :=
  String.mk (s.data.map Char.toLower)

/-- JavaScript `String.prototype.toUpperCase` (ASCII case mapping). -/
def jsToUpper (s : String) : String :=
  String.mk (s.data.map Char.toUpper)

/-- Decidable substring test, modelling JavaScript `String.prototype.includes`. -/
def strContains (haystack needle : String) : Bool :=
  decide (needle.data <:+: haystack.data)

/-- JavaScript `a || b` on optional strings: `undefined` and `""` are falsy. -/
def jsOr (a b : Option String) : Option String :=
  match a with
  | some s => if s == "" then b else some s
  | Option.none => b

/-- JavaScript `x || null` on an optional string: `undefined` and `""` become null. -/
def jsOrNull (a : Option String) : Option String :=
  match a with
  | some s => if s == "" then Option.none else some s
  | Option.none => Option.none

/-- JavaScript `Math.abs` on rationals. -/
def mathAbs (q : ℚ) : ℚ := if q < 0 then -q else q

/-- JavaScript `Math.max` on two rationals. -/
def mathMax (a b : ℚ) : ℚ := if a ≤ b then b else a

/-- Decimal rendering with one fractional digit, modelling JavaScript
`Number.prototype.toFixed(1)` on the exactly representable values this
development evaluates it on. -/
def toFixed1 (q : ℚ) : String :=
  let scaled : Int := round (q * 10)
  let sign := if scaled < 0 then "-" else ""
  let n := scaled.natAbs
  sign ++ toString (n / 10) ++ "." ++ toString (n % 10)

/-- Decimal rendering with two fractional digits, modelling JavaScript
`Number.prototype.toFixed(2)` on the exactly representable values this
development evaluates it on. -/
def toFixed2 (q : ℚ) : String :=
  let scaled : Int := round (q * 100)
  let sign := if scaled < 0 then "-" else ""
  let n := scaled.natAbs
  sign ++ toString (n / 100) ++ "." ++
    (if n % 100 < 10 then "0" else "") ++ toString (n % 100)

/-! ### Differ (`app/services/differ.server.ts`) -/

/-- Result of `compareSnapshots` (`DiffResult` in `differ.server.ts`). -/
structure DiffResult where
  added : List String
  removed : List String
  addedCount : Nat
  removedCount : Nat
  totalOldLines : Nat
  totalNewLines : Nat
  changeRatio : ℚ
  hasChanges : Bool
deriving DecidableEq, Repr

/-- Line tokenization used by both differs:
`text.split("\n").filter((l) => l.trim())` — split on newline and keep the
(untrimmed) lines whose trimmed form is nonempty. -/
def contentLines (text : String) : List String :=
  (jsSplit text '\n').filter (fun l => jsTrim l != "")

/-- Embedding of `compareSnapshots` (`differ.server.ts` lines 14–38). -/
def compareSnapshots (oldText newText : String) : DiffResult :=
  let oldLines := contentLines oldText
  let newLines := contentLines newText
  let added := newLines.filter (fun line => !(oldLines.contains line))
  let removed := oldLines.filter (fun line => !(newLines.contains line))
  let changeRatio : ℚ :=
    ((added.length + removed.length : Nat) : ℚ) /
      ((max (max oldLines.length newLines.length) 1 : Nat) : ℚ)
  { added := added
    removed := removed
    addedCount := added.length
    removedCount := removed.length
    totalOldLines := oldLines.length
    totalNewLines := newLines.length
    changeRatio := changeRatio
    hasChanges := decide (0 < added.length) || decide (0 < removed.length) }

/-- Embedding of `generateChangeSummary` (`differ.server.ts` lines 40–58). -/
def generateChangeSummary (diff : DiffResult) : String :=
  if !diff.hasChanges then
    "No changes detected."
  else
    let parts : List String :=
      (if 0 < diff.addedCount then
        [toString diff.addedCount ++ " line(s) added"] else []) ++
      (if 0 < diff.removedCount then
        [toString diff.removedCount ++ " line(s) removed"] else []) ++
      ["(" ++ toFixed1 (diff.changeRatio * 100) ++ "% change)"]
    String.intercalate ", " parts

/-- Embedding of `determineSignificance` (`differ.server.ts` lines 60–68). -/
def determineSignificance (diff : DiffResult) : String :=
  if !diff.hasChanges then "none"
  else if (0.3 : ℚ) < diff.changeRatio then "high"
  else if (0.1 : ℚ) < diff.changeRatio then "medium"
  else if 20 < diff.addedCount + diff.removedCount then "medium"
  else "low"

/-! ### Legacy differ (`src/services/differ.js`)

The legacy JavaScript differ, embedded separately from its own source for the
refinement claim. Its result object has the same fields as the app differ's
`DiffResult`, so the shared structure is reused as the common result type. -/

namespace Legacy

/-- Embedding of `compareSnapshots` (`src/services/differ.js` lines 1–23). -/
def compareSnapshots (oldText newText : String) : DiffResult :=
  let oldLines := contentLines oldText
  let newLines := contentLines newText
  let added := newLines.filter (fun line => !(oldLines.contains line))
  let removed := oldLines.filter (fun line => !(newLines.contains line))
  let changeRatio : ℚ :=
    ((added.length + removed.length : Nat) : ℚ) /
      ((max (max oldLines.length newLines.length) 1 : Nat) : ℚ)
  { added := added
    removed := removed
    addedCount := added.length
    removedCount := removed.length
    totalOldLines := oldLines.length
    totalNewLines := newLines.length
    changeRatio := changeRatio
    hasChanges := decide (0 < added.length) || decide (0 < removed.length) }

/-- Embedding of `generateChangeSummary` (`src/services/differ.js` lines 25–43). -/
def generateChangeSummary (diff : DiffResult) : String :=
  if !diff.hasChanges then
    "No changes detected."
  else
    let parts : List String :=
      (if 0 < diff.addedCount then
        [toString diff.addedCount ++ " line(s) added"] else []) ++
      (if 0 < diff.removedCount then
        [toString diff.removedCount ++ " line(s) removed"] else []) ++
      ["(" ++ toFixed1 (diff.changeRatio * 100) ++ "% change)"]
    String.intercalate ", " parts

/-- Embedding of `determineSignificance` (`src/services/differ.js` lines 45–53). -/
def determineSignificance (diff : DiffResult) : String :=
  if !diff.hasChanges then "none"
  else if (0.3 : ℚ) < diff.changeRatio then "high"
  else if (0.1 : ℚ) < diff.changeRatio then "medium"
  else if 20 < diff.addedCount + diff.removedCount then "medium"
  else "low"

end Legacy

/-! ### Price thresholds and deltas (`app/services/priceExtractor.server.ts`) -/

/-- Confidence tiers for price extraction. -/
inductive PriceConfidence where
  | high
  | medium
  | low
  | none
deriving DecidableEq, Repr

/-- `PriceThresholds` with its two optional fields. -/
structure PriceThresholds where
  minPercentChange : Option ℚ
  minAmountChange : Option ℚ
deriving DecidableEq, Repr

/-- Return type of `getConfidenceAdjustedThresholds`:
`PriceThresholds & { shouldAlert: boolean }`. -/
structure AdjustedThresholds where
  minPercentChange : Option ℚ
  minAmountChange : Option ℚ
  shouldAlert : Bool
deriving DecidableEq, Repr

/-- The threshold part of an adjusted-threshold record (what `computePriceDelta`
reads of the object `checkPage` passes it). -/
def AdjustedThresholds.base (t : AdjustedThresholds) : PriceThresholds :=
  ⟨t.minPercentChange, t.minAmountChange⟩

/-- Embedding of `getConfidenceAdjustedThresholds`
(`priceExtractor.server.ts` lines 46–69). -/
def getConfidenceAdjustedThresholds (confidence : PriceConfidence)
    (baseThresholds : PriceThresholds) : AdjustedThresholds :=
  match confidence with
  | .high =>
      ⟨baseThresholds.minPercentChange, baseThresholds.minAmountChange, true⟩
  | .medium =>
      ⟨baseThresholds.minPercentChange, baseThresholds.minAmountChange, true⟩
  | .low =>
      ⟨some (mathMax (baseThresholds.minPercentChange.getD 1) 5),
       some (mathMax (baseThresholds.minAmountChange.getD 0.5) 2), true⟩
  | .none =>
      ⟨baseThresholds.minPercentChange, baseThresholds.minAmountChange, false⟩

/-- `PriceDelta` record; `direction` keeps the source's string values
`"increase" | "decrease" | "unchanged" | "unknown"`. -/
structure PriceDelta where
  oldPrice : Option ℚ
  newPrice : Option ℚ
  deltaAmount : Option ℚ
  deltaPercent : Option ℚ
  isMeaningful : Bool
  direction : String
deriving DecidableEq, Repr

/-- `DEFAULT_THRESHOLDS` of `priceExtractor.server.ts` lines 502–505. -/
def DEFAULT_THRESHOLDS : PriceThresholds := ⟨some 1, some 0.01⟩

/-- Embedding of `computePriceDelta` (`priceExtractor.server.ts` lines 507–578).
The spread `{ ...DEFAULT_THRESHOLDS, ...thresholds }` keeps a default field
exactly when the corresponding argument field is absent. -/
def computePriceDelta (oldPrice newPrice : Option ℚ)
    (thresholds : PriceThresholds) : PriceDelta :=
  let config : PriceThresholds :=
    ⟨match thresholds.minPercentChange with
      | some v => some v
      | Option.none => DEFAULT_THRESHOLDS.minPercentChange,
     match thresholds.minAmountChange with
      | some v => some v
      | Option.none => DEFAULT_THRESHOLDS.minAmountChange⟩
  match oldPrice, newPrice with
  | Option.none, Option.none =>
      ⟨Option.none, Option.none, Option.none, Option.none, false, "unknown"⟩
  | Option.none, some np =>
      ⟨Option.none, some np, Option.none, Option.none, true, "unknown"⟩
  | some op, Option.none =>
      ⟨some op, Option.none, Option.none, Option.none, true, "unknown"⟩
  | some op, some np =>
      let deltaAmount := np - op
      let deltaPercent : Option ℚ :=
        if op ≠ 0 then some (deltaAmount / op * 100) else Option.none
      let absDeltaAmount := mathAbs deltaAmount
      let absDeltaPercent : ℚ :=
        match deltaPercent with
        | some p => mathAbs p
        | Option.none => 0
      let isMeaningful :=
        decide (config.minAmountChange.getD 0 ≤ absDeltaAmount) ||
        decide (config.minPercentChange.getD 0 ≤ absDeltaPercent)
      let direction :=
        if 0 < deltaAmount then "increase"
        else if deltaAmount < 0 then "decrease"
        else "unchanged"
      ⟨some op, some np, some deltaAmount, deltaPercent, isMeaningful, direction⟩

/-- `PRICE_CHANGE_THRESHOLDS` (`monitor.server.ts` lines 31–43) with the
environment-variable overrides absent: 1 percent and 0.50 currency units. -/
def PRICE_CHANGE_THRESHOLDS : PriceThresholds := ⟨some 1, some 0.5⟩

/-! ### Numeric price parsing (`priceExtractor.server.ts` lines 136–217) -/

/-- Value of a list of decimal digit characters. -/
def digitsToNat (ds : List Char) : Nat :=
  ds.foldl (fun acc c => acc * 10 + (c.toNat - '0'.toNat)) 0

/-- Digit scanning of JavaScript `parseFloat`: skip leading whitespace, read an
optional sign, integer digits, and fraction digits after a dot, ignoring any
trailing characters; fails when no digit was read. Returns
(negative, integer digits, fraction digits, fraction length). Exponent forms
never reach this parser: the caller strips every character other than digits,
separators, signs and whitespace first. -/
def parseFloatParts (s : String) : Option (Bool × Nat × Nat × Nat) :=
  let cs := s.data.dropWhile Char.isWhitespace
  let signAndRest : Bool × List Char :=
    match cs with
    | [] => (false, [])
    | c :: rest =>
        if c == '-' then (true, rest)
        else if c == '+' then (false, rest)
        else (false, c :: rest)
  let cs1 := signAndRest.2
  let intDigits := cs1.takeWhile Char.isDigit
  let rest1 := cs1.dropWhile Char.isDigit
  let fracDigits :=
    match rest1 with
    | [] => []
    | c :: rest2 => if c == '.' then rest2.takeWhile Char.isDigit else []
  if intDigits.isEmpty && fracDigits.isEmpty then Option.none
  else some (signAndRest.1, digitsToNat intDigits, digitsToNat fracDigits,
    fracDigits.length)

/-- Rational value denoted by scanned `parseFloat` parts. -/
def ratOfParts (neg : Bool) (intPart fracPart fracLen : Nat) : ℚ :=
  (if neg then -1 else 1) * ((intPart : ℚ) + (fracPart : ℚ) / (10 : ℚ) ^ fracLen)

/-- JavaScript `parseFloat`, with `NaN` modelled as `Option.none`. -/
def parseFloatJS (s : String) : Option ℚ :=
  (parseFloatParts s).map (fun p => ratOfParts p.1 p.2.1 p.2.2.1 p.2.2.2)

/-- Index of the last occurrence of a character, from a running scan. -/
def lastIdxOfAux (t : Char) : List Char → Nat → Option Nat → Option Nat
  | [], _, best => best
  | c :: rest, i, best =>
      lastIdxOfAux t rest (i + 1) (if c == t then some i else best)

/-- JavaScript `String.prototype.lastIndexOf` for a single character,
`Option.none` when absent. -/
def lastIdxOf (cs : List Char) (t : Char) : Option Nat :=
  lastIdxOfAux t cs 0 Option.none

/-- JavaScript `String.prototype.replace` with a one-character pattern:
replace only the first occurrence. -/
def replaceFirstChar : List Char → Char → Char → List Char
  | [], _, _ => []
  | c :: rest, t, r =>
      if c == t then r :: rest else c :: replaceFirstChar rest t r

/-- Separator normalization of `parsePrice` (`priceExtractor.server.ts`
lines 174–202): with both `,` and `.` present, the kind whose last occurrence
lies further right decides the format — comma last removes every dot and
turns only the first comma into a dot, dot last removes every comma; with
only `,` present it becomes a dot exactly when the string splits at commas
into two parts whose second part has at most two characters, and otherwise
commas are dropped as thousands separators; with neither separator,
whitespace is dropped. -/
def normalizeNumericPart (numericPart : String) : String :=
  let cs := numericPart.data
  if cs.contains ',' && cs.contains '.' then
    if (lastIdxOf cs '.').getD 0 < (lastIdxOf cs ',').getD 0 then
      String.mk (replaceFirstChar (cs.filter (fun c => c != '.')) ',' '.')
    else
      String.mk (cs.filter (fun c => c != ','))
  else if cs.contains ',' then
    let parts := jsSplit numericPart ','
    if parts.length == 2 && (parts.getD 1 "").length ≤ 2 then
      String.mk (replaceFirstChar cs ',' '.')
    else
      String.mk (cs.filter (fun c => c != ','))
  else
    String.mk (cs.filter (fun c => !c.isWhitespace))

/-- Result of `parsePrice`: numeric value and inferred currency. -/
structure ParsedPrice where
  value : ℚ
  currency : Option String
deriving DecidableEq, Repr

/-- `CURRENCY_CODES` (`priceExtractor.server.ts` lines 100–134). -/
def CURRENCY_CODES : List String :=
  ["USD", "GBP", "EUR", "JPY", "CAD", "AUD", "CHF", "CNY", "INR", "SEK",
   "NOK", "DKK", "NZD", "SGD", "HKD", "KRW", "MXN", "BRL", "RUB", "ZAR",
   "TRY", "PLN", "THB", "IDR", "MYR", "PHP", "CZK", "ILS", "AED", "CLP",
   "COP", "PEN", "VND"]

/-- `CURRENCY_SYMBOLS` entries in object insertion order
(`priceExtractor.server.ts` lines 76–98). -/
def CURRENCY_SYMBOLS : List (String × String) :=
  [("$", "USD"), ("£", "GBP"), ("€", "EUR"), ("¥", "JPY"), ("₹", "INR"),
   ("C$", "CAD"), ("A$", "AUD"), ("kr", "SEK"), ("₽", "RUB"), ("R$", "BRL"),
   ("₩", "KRW"), ("฿", "THB"), ("₫", "VND"), ("₱", "PHP"), ("₴", "UAH"),
   ("₦", "NGN"), ("zł", "PLN"), ("Kč", "CZK"), ("Ft", "HUF"), ("lei", "RON"),
   ("₪", "ILS")]

/-- Embedding of `parsePrice` (`priceExtractor.server.ts` lines 136–211).
The argument is always a string, so only the falsy empty-string guard of
`if (!priceString || typeof priceString !== "string")` is reachable. -/
def parsePrice (priceString : String) : Option ParsedPrice :=
  if priceString == "" then Option.none
  else
    let cleaned := jsTrim priceString
    let currency : Option String :=
      match CURRENCY_CODES.find? (fun code => strContains (jsToUpper cleaned) code) with
      | some code => some code
      | Option.none =>
          (CURRENCY_SYMBOLS.find? (fun p => strContains cleaned p.1)).map
            (fun p => p.2)
    let numericPart :=
      jsTrim (String.mk (cleaned.data.filter (fun c =>
        c.isDigit || c == '.' || c == ',' || c == '-' || c.isWhitespace)))
    if numericPart == "" then Option.none
    else
      match parseFloatJS (normalizeNumericPart numericPart) with
      | Option.none => Option.none
      | some value => some ⟨value, currency⟩

/-- The decimal digit character of a digit value. -/
def digitChar (d : Fin 10) : Char := Char.ofNat (48 + d.val)

/-- The character string of a list of digit values. -/
def digitsStr (ds : List (Fin 10)) : List Char := ds.map digitChar

/-- Extraction configuration (`PriceExtractionConfig`). -/
structure PriceExtractionConfig where
  minPrice : Option ℚ
  maxPrice : Option ℚ
deriving DecidableEq, Repr

/-- `DEFAULT_CONFIG` (`priceExtractor.server.ts` lines 71–74). -/
def DEFAULT_CONFIG : PriceExtractionConfig := ⟨some 0.01, some 1000000⟩

/-- Embedding of `isValidPrice` (`priceExtractor.server.ts` lines 213–217). -/
def isValidPrice (value : ℚ) (config : PriceExtractionConfig) : Bool :=
  let low := config.minPrice.getD 0.01
  let high := config.maxPrice.getD 1000000
  decide (low ≤ value) && decide (value ≤ high)

/-! ### Price extraction strategies (`priceExtractor.server.ts` lines 219–486)

Cheerio HTML parsing, JSON parsing and the JavaScript regex engine are
external collaborators. A `PageModel` records their query results for a page:
the parsed JSON-LD scripts (with `Option.none` for a script whose JSON fails
to parse), the `content` attributes the meta-tag selectors resolve to, the
element lists the structural price selectors resolve to, and the substrings
the three price regexes match in a text. The extraction and validation logic
itself is embedded from the source. -/

/-- A JSON-LD price field as `JSON.parse` can produce it where the source
reads it: a string, a number, or JSON null. The guard
`offer.price !== undefined` admits null, which then passes `!isNaN(value)`
(JavaScript `isNaN(null)` is false) and reaches the range check under
JavaScript coercion. Booleans, arrays and objects are outside the model. -/
inductive LdPrice where
  | str (s : String)
  | num (q : ℚ)
  | null
deriving DecidableEq, Repr

/-- The JavaScript value of
`typeof offer.price === "string" ? parseFloat(offer.price) : offer.price`:
a number, `NaN` (an unparseable string), or JSON null passed through. -/
inductive JsPriceVal where
  | num (q : ℚ)
  | nan
  | nullv
deriving DecidableEq, Repr

/-- The value computation of the JSON-LD price checks. -/
def LdPrice.jsValue : LdPrice → JsPriceVal
  | .str s =>
      match parseFloatJS s with
      | some q => JsPriceVal.num q
      | Option.none => JsPriceVal.nan
  | .num q => JsPriceVal.num q
  | .null => JsPriceVal.nullv

/-- JavaScript `isNaN(value)` on such a value (`isNaN(null)` is false). -/
def JsPriceVal.isNanB : JsPriceVal → Bool
  | .nan => true
  | _ => false

/-- `isValidPrice(value, config)` under JavaScript comparison semantics:
null coerces to 0 in `>=` and `<=`, and every comparison with NaN is false. -/
def jsNumValidPrice (v : JsPriceVal) (config : PriceExtractionConfig) : Bool :=
  match v with
  | .num q => isValidPrice q config
  | .nullv => isValidPrice 0 config
  | .nan => false

/-- The `priceValue` field such a value is stored as: a number, or null for
JSON null (NaN never reaches a result, being filtered by the `isNaN` guard). -/
def JsPriceVal.toPriceValue : JsPriceVal → Option ℚ
  | .num q => some q
  | _ => Option.none

/-- Raw rendering `String(price)`; the number-to-string conversion of the
numeric case is opaque in this model and never inspected by any claim. -/
def LdPrice.raw : LdPrice → String
  | .str s => s
  | .num q => toString q
  | .null => "null"

/-- A JSON-LD offer object as the extractor reads it. -/
structure LdOffer where
  price : Option LdPrice
  priceCurrency : Option String
deriving DecidableEq, Repr

/-- A JSON-LD top-level item as the extractor reads it: its `@type`, its
offer list (`item.offers`, already normalised from array-or-object form;
`Option.none` when absent or falsy), and direct price fields for `Offer`
items. -/
structure LdItem where
  atType : String
  offers : Option (List LdOffer)
  price : Option LdPrice
  priceCurrency : Option String
deriving DecidableEq, Repr

/-- An element matched by a structural price selector: the three attributes
the code reads and its text content. -/
structure SelElem where
  dataPrice : Option String
  dataProductPrice : Option String
  contentAttr : Option String
  text : String
deriving DecidableEq, Repr

/-- Query results of the external HTML/JSON/regex collaborators for one page. -/
structure PageModel where
  jsonLdScripts : List (Option (List LdItem))
  metaContent : String → Option (Option String)
  selectorElems : String → List SelElem
  regexMatches : String → List String

/-- `ExtractedPrice` result record. -/
structure ExtractedPrice where
  priceValue : Option ℚ
  priceRaw : Option String
  currency : Option String
  confidence : PriceConfidence
  source : String
deriving DecidableEq, Repr

/-- Offer handling inside `extractFromJsonLd`: a defined price parses, must be
valid for the config, and yields a high-confidence result. -/
def checkLdOffer (config : PriceExtractionConfig) (offer : LdOffer) :
    Option ExtractedPrice :=
  match offer.price with
  | Option.none => Option.none
  | some p =>
      if !(p.jsValue.isNanB) && jsNumValidPrice p.jsValue config then
        some ⟨p.jsValue.toPriceValue, some p.raw, jsOrNull offer.priceCurrency,
          PriceConfidence.high, "json-ld"⟩
      else Option.none

/-- The `Product`-with-offers block of the JSON-LD item loop. -/
def checkLdItemProduct (config : PriceExtractionConfig) (item : LdItem) :
    Option ExtractedPrice :=
  if item.atType == "Product" then
    match item.offers with
    | some offers => offers.findSome? (checkLdOffer config)
    | Option.none => Option.none
  else Option.none

/-- The direct `Offer` block of the JSON-LD item loop. -/
def checkLdItemOffer (config : PriceExtractionConfig) (item : LdItem) :
    Option ExtractedPrice :=
  if item.atType == "Offer" then
    match item.price with
    | some p =>
        if !(p.jsValue.isNanB) && jsNumValidPrice p.jsValue config then
          some ⟨p.jsValue.toPriceValue, some p.raw, jsOrNull item.priceCurrency,
            PriceConfidence.high, "json-ld"⟩
        else Option.none
    | Option.none => Option.none
  else Option.none

/-- Item handling inside `extractFromJsonLd`: the `Product`-with-offers check
runs first, then the direct `Offer` check. -/
def checkLdItem (config : PriceExtractionConfig) (item : LdItem) :
    Option ExtractedPrice :=
  match checkLdItemProduct config item with
  | some r => some r
  | Option.none => checkLdItemOffer config item

/-- Embedding of `extractFromJsonLd` (`priceExtractor.server.ts`
lines 219–271); a script whose JSON fails to parse is skipped. -/
def extractFromJsonLd (scripts : List (Option (List LdItem)))
    (config : PriceExtractionConfig) : Option ExtractedPrice :=
  scripts.findSome? (fun script =>
    match script with
    | Option.none => Option.none
    | some items => items.findSome? (checkLdItem config))

/-- The five OpenGraph-style meta selectors tried for a price, in order. -/
def ogPriceSelectors : List String :=
  ["meta[property=\"og:price:amount\"]",
   "meta[property=\"product:price:amount\"]",
   "meta[name=\"product:price:amount\"]",
   "meta[property=\"og:price\"]",
   "meta[name=\"twitter:data1\"]"]

/-- The three meta selectors tried for a currency, in order. -/
def metaCurrencySelectors : List String :=
  ["meta[property=\"og:price:currency\"]",
   "meta[property=\"product:price:currency\"]",
   "meta[name=\"product:price:currency\"]"]

/-- The per-selector body of the meta-tag loop: an existing element with a
truthy `content` attribute that parses to a valid price yields a
high-confidence result, with the currency selectors consulted when the parsed
string inferred none. -/
def checkMetaSelector (page : PageModel) (config : PriceExtractionConfig)
    (selector : String) : Option ExtractedPrice :=
  match page.metaContent selector with
  | Option.none => Option.none
  | some contentOpt =>
    match contentOpt with
    | Option.none => Option.none
    | some priceContent =>
      if priceContent != "" then
        match parsePrice priceContent with
        | some parsed =>
          if isValidPrice parsed.value config then
            let currency : Option String :=
              match parsed.currency with
              | some c => some c
              | Option.none =>
                  (metaCurrencySelectors.findSome? (fun cs =>
                    (page.metaContent cs).map jsOrNull)).join
            some ⟨some parsed.value, some priceContent, currency,
              PriceConfidence.high, "meta-tag"⟩
          else Option.none
        | Option.none => Option.none
      else Option.none

/-- Embedding of `extractFromMetaTags` (`priceExtractor.server.ts`
lines 273–323). -/
def extractFromMetaTags (page : PageModel) (config : PriceExtractionConfig) :
    Option ExtractedPrice :=
  ogPriceSelectors.findSome? (checkMetaSelector page config)

/-- The seventeen structural price selectors, in source order. -/
def priceSelectors : List String :=
  ["[data-price]", "[data-product-price]", "[itemprop=\"price\"]",
   ".product-price", ".price-value", ".current-price", ".sale-price",
   ".final-price", "#product-price", ".product__price", ".price--main",
   ".price-item--regular", ".price-item--sale", "[class*=\"ProductPrice\"]",
   "[class*=\"product-price\"]", "[class*=\"productPrice\"]", ".price"]

/-- The data-attribute block of the selector element check:
`el.attr("data-price") || el.attr("data-product-price") || el.attr("content")`. -/
def checkSelElemAttr (config : PriceExtractionConfig) (selector : String)
    (el : SelElem) : Option ExtractedPrice :=
  match jsOr el.dataPrice (jsOr el.dataProductPrice el.contentAttr) with
  | some dp =>
    if dp != "" then
      match parsePrice dp with
      | some parsed =>
        if isValidPrice parsed.value config then
          some ⟨some parsed.value, some dp, parsed.currency,
            PriceConfidence.medium, "selector:" ++ selector⟩
        else Option.none
      | Option.none => Option.none
    else Option.none
  | Option.none => Option.none

/-- The text-content block of the selector element check. -/
def checkSelElemText (config : PriceExtractionConfig) (selector : String)
    (el : SelElem) : Option ExtractedPrice :=
  if jsTrim el.text != "" then
    match parsePrice (jsTrim el.text) with
    | some parsed =>
      if isValidPrice parsed.value config then
        some ⟨some parsed.value, some (jsTrim el.text), parsed.currency,
          PriceConfidence.medium, "selector:" ++ selector⟩
      else Option.none
    | Option.none => Option.none
  else Option.none

/-- Element handling inside `extractFromSelectors`: data attributes are
checked before the element text. -/
def checkSelElem (config : PriceExtractionConfig) (selector : String)
    (el : SelElem) : Option ExtractedPrice :=
  match checkSelElemAttr config selector el with
  | some r => some r
  | Option.none => checkSelElemText config selector el

/-- Embedding of `extractFromSelectors` (`priceExtractor.server.ts`
lines 325–388); at most the first five elements per selector are checked. -/
def extractFromSelectors (page : PageModel) (config : PriceExtractionConfig) :
    Option ExtractedPrice :=
  priceSelectors.findSome? (fun selector =>
    ((page.selectorElems selector).take 5).findSome?
      (checkSelElem config selector))

/-- A validated regex price candidate. -/
structure RegexPrice where
  value : ℚ
  raw : String
  currency : Option String
deriving DecidableEq, Repr

/-- Candidate collection of `extractFromRegex`: every match that parses to a
valid price. -/
def regexCandidates (matchList : List String) (config : PriceExtractionConfig) :
    List RegexPrice :=
  matchList.filterMap (fun m =>
    match parsePrice m with
    | some parsed =>
        if isValidPrice parsed.value config then
          some ⟨parsed.value, m, parsed.currency⟩
        else Option.none
    | Option.none => Option.none)

/-- The most-common-value scan of `extractFromRegex`: walk the candidates,
replacing the running best whenever a strictly larger occurrence count is
seen. -/
def pickMostCommon (count : ℚ → Nat) :
    List RegexPrice → RegexPrice → Nat → RegexPrice
  | [], best, _ => best
  | p :: rest, best, bestCount =>
      if bestCount < count p.value then pickMostCommon count rest p (count p.value)
      else pickMostCommon count rest best bestCount

/-- The best candidate of the regex scan: the first price, replaced by any
later price with a strictly larger occurrence count. -/
def bestRegexPrice (prices : List RegexPrice) (p0 : RegexPrice) : RegexPrice :=
  pickMostCommon (fun v => prices.countP (fun p => p.value == v)) prices p0 1

/-- The result assembly of `extractFromRegex` over the validated candidates. -/
def extractFromRegexFrom (prices : List RegexPrice) : Option ExtractedPrice :=
  match prices with
  | [] => Option.none
  | p0 :: _ =>
      some ⟨some (bestRegexPrice prices p0).value,
        some (bestRegexPrice prices p0).raw,
        (bestRegexPrice prices p0).currency,
        PriceConfidence.low, "regex"⟩

/-- Embedding of `extractFromRegex` (`priceExtractor.server.ts`
lines 390–446); the regex match list itself comes from the page model. -/
def extractFromRegex (matchList : List String) (config : PriceExtractionConfig) :
    Option ExtractedPrice :=
  extractFromRegexFrom (regexCandidates matchList config)

/-- The spread `{ ...DEFAULT_CONFIG, ...config }` of `extractPrice`: a default
bound survives exactly when the corresponding argument field is absent. -/
def mergeConfig (config : PriceExtractionConfig) : PriceExtractionConfig :=
  ⟨match config.minPrice with
    | some v => some v
    | Option.none => DEFAULT_CONFIG.minPrice,
   match config.maxPrice with
    | some v => some v
    | Option.none => DEFAULT_CONFIG.maxPrice⟩

/-- Embedding of `extractPrice` (`priceExtractor.server.ts` lines 448–486):
the four strategies in reliability order, then the empty `none` result. -/
def extractPrice (page : PageModel) (textContent : Option String)
    (config : PriceExtractionConfig) : ExtractedPrice :=
  let mergedConfig := mergeConfig config
  match extractFromJsonLd page.jsonLdScripts mergedConfig with
  | some r => r
  | Option.none =>
  match extractFromMetaTags page mergedConfig with
  | some r => r
  | Option.none =>
  match extractFromSelectors page mergedConfig with
  | some r => r
  | Option.none =>
  match textContent with
  | some tc =>
    if tc != "" then
      match extractFromRegex (page.regexMatches tc) mergedConfig with
      | some r => r
      | Option.none =>
          ⟨Option.none, Option.none, Option.none, PriceConfidence.none, "none"⟩
    else ⟨Option.none, Option.none, Option.none, PriceConfidence.none, "none"⟩
  | Option.none =>
      ⟨Option.none, Option.none, Option.none, PriceConfidence.none, "none"⟩

/-! ### Price formatting (`priceExtractor.server.ts` lines 580–607) -/

/-- Embedding of the private `formatPrice` helper. -/
def formatPrice (value : ℚ) (currency : Option String) : String :=
  let symbol :=
    match currency with
    | some c =>
        match CURRENCY_SYMBOLS.find? (fun p => p.2 == c) with
        | some p => p.1
        | Option.none => c ++ " "
    | Option.none => "$"
  symbol ++ toFixed2 (mathAbs value)

/-- Embedding of `formatPriceChange` (`priceExtractor.server.ts`
lines 580–600). -/
def formatPriceChange (delta : PriceDelta) (currency : Option String) : String :=
  if delta.direction == "unknown" then
    if delta.newPrice.isSome && delta.oldPrice.isNone then
      "Price detected: " ++ formatPrice (delta.newPrice.getD 0) currency
    else if delta.oldPrice.isSome && delta.newPrice.isNone then
      "Price no longer detected (was " ++
        formatPrice (delta.oldPrice.getD 0) currency ++ ")"
    else "Price change unknown"
  else if delta.direction == "unchanged" then "Price unchanged"
  else
    let symbol := if delta.direction == "increase" then "+" else ""
    let amountStr :=
      match delta.deltaAmount with
      | some a => formatPrice a currency
      | Option.none => "?"
    let pctStr :=
      match delta.deltaPercent with
      | some p => toFixed1 p ++ "%"
      | Option.none => "?"
    "Price " ++ delta.direction ++ ": " ++ symbol ++ amountStr ++
      " (" ++ symbol ++ pctStr ++ ")"

/-! ### Analyzer wrapper (`app/services/analyzer.server.ts`)

The Anthropic API client is an external collaborator; an `AiOutcome` is what
one call to it can produce as seen by the wrapper: no configured client, a
thrown error with a message, or the response text. -/

/-- `AnalysisResult`: free text plus a significance verdict string
(`"high" | "medium" | "low" | "unknown"`). -/
structure AnalysisResult where
  analysis : String
  significance : String
deriving DecidableEq, Repr

/-- Outcome of the external LLM call. -/
inductive AiOutcome where
  | noClient
  | apiError (message : String)
  | response (text : String)
deriving DecidableEq, Repr

/-- Embedding of `analyzeChanges` (`analyzer.server.ts` lines 116–208): no
client or a thrown call degrade to significance `"unknown"` with a synthetic
text; otherwise the response text is scanned, case-insensitively, for
explicit significance markers, defaulting to `"medium"`. -/
def analyzeChanges (ai : AiOutcome) : AnalysisResult :=
  match ai with
  | .noClient =>
      ⟨"AI analysis unavailable - API key not configured", "unknown"⟩
  | .apiError message =>
      ⟨"AI analysis failed: " ++ message, "unknown"⟩
  | .response analysis =>
      let lowerAnalysis := jsToLower analysis
      let significance :=
        if strContains lowerAnalysis "significance: high" ||
           strContains lowerAnalysis "significance:** high" then "high"
        else if strContains lowerAnalysis "significance: low" ||
                strContains lowerAnalysis "significance:** low" then "low"
        else "medium"
      ⟨analysis, significance⟩

/-- Embedding of `analyzePriceChange` (`analyzer.server.ts` lines 210–312):
like `analyzeChanges`, but with a magnitude heuristic on the delta percent
when the response states no explicit verdict. -/
def analyzePriceChange (ai : AiOutcome) (priceDelta : PriceDelta) :
    AnalysisResult :=
  match ai with
  | .noClient =>
      ⟨"AI analysis unavailable - API key not configured", "unknown"⟩
  | .apiError message =>
      ⟨"AI analysis failed: " ++ message, "unknown"⟩
  | .response analysis =>
      let lowerAnalysis := jsToLower analysis
      let significance :=
        if strContains lowerAnalysis "significance: high" ||
           strContains lowerAnalysis "significance:** high" then "high"
        else if strContains lowerAnalysis "significance: low" ||
                strContains lowerAnalysis "significance:** low" then "low"
        else
          let pctChange := mathAbs (priceDelta.deltaPercent.getD 0)
          if 10 ≤ pctChange then "high"
          else if 5 ≤ pctChange then "medium"
          else "low"
      ⟨analysis, significance⟩

/-! ### Monitor (`app/services/monitor.server.ts`)

The Prisma store is modelled per page: the page's snapshot list and change
list in insertion order, with fresh-id counters. Record timestamps are
naturals supplied by the caller (`now`). The scraper result, the LLM outcome
and the notifier result are inputs; DEV_MODE is off, so the effective price
is the scraped price. -/

/-- A stored snapshot row (the fields the monitor reads and writes). -/
structure Snapshot where
  id : Nat
  capturedAt : Nat
  contentHash : String
  textContent : String
  priceValue : Option ℚ
  priceRaw : Option String
  currency : Option String
deriving DecidableEq, Repr

/-- A stored change row (the fields the monitor writes). -/
structure Change where
  id : Nat
  oldContentHash : String
  newContentHash : String
  changeSummary : String
  aiAnalysis : String
  significance : String
  changeType : String
  oldPrice : Option ℚ
  newPrice : Option ℚ
  priceDelta : Option ℚ
  priceDeltaPct : Option ℚ
  notified : Bool
deriving DecidableEq, Repr

/-- What the scraper returns for a page (`ScrapeResult`). -/
structure ScrapeResult where
  contentHash : String
  textContent : String
  priceValue : Option ℚ
  priceRaw : Option String
  currency : Option String
  priceConfidence : PriceConfidence
deriving DecidableEq, Repr

/-- The store state for one page. -/
structure MonitorState where
  snapshots : List Snapshot
  changes : List Change
  nextSnapshotId : Nat
  nextChangeId : Nat
deriving DecidableEq, Repr

/-- What `checkPage` returns to its caller (the fields the claims inspect):
first-snapshot flag, the created change record of the content branch, and the
price-change pair of either change branch. -/
structure CheckResult where
  isFirstSnapshot : Bool
  change : Option Change
  priceChange : Option (Nat × PriceDelta)
deriving DecidableEq, Repr

/-- Ordering used by the store queries `orderBy: { capturedAt: "desc" }`. -/
def capturedDesc (a b : Snapshot) : Prop := b.capturedAt ≤ a.capturedAt

instance : DecidableRel capturedDesc := fun _ _ => Nat.decLe _ _

instance : IsTotal Snapshot capturedDesc :=
  ⟨fun a b => Nat.le_total b.capturedAt a.capturedAt⟩

instance : IsTrans Snapshot capturedDesc :=
  ⟨fun _ _ _ h1 h2 => le_trans h2 h1⟩

/-- The page's snapshots ordered by capture time, newest first (a stable sort;
the store's tie order is unspecified and every claim that depends on the head
assumes a strict maximum). -/
def snapshotsByCapturedDesc (snaps : List Snapshot) : List Snapshot :=
  List.insertionSort capturedDesc snaps

/-- Embedding of `cleanupOldSnapshots` (`monitor.server.ts` lines 62–75):
find the page's snapshots ordered newest first, skip the first 10, and delete
the rest by id. -/
def cleanupOldSnapshots (snaps : List Snapshot) : List Snapshot :=
  if 0 < ((snapshotsByCapturedDesc snaps).drop 10).length then
    snaps.filter (fun s =>
      !((((snapshotsByCapturedDesc snaps).drop 10).map Snapshot.id).contains s.id))
  else snaps

/-- Embedding of `checkPage` (`monitor.server.ts` lines 117–397) for one page
state: look up the latest snapshot, store the new one, and branch on content
and gated price change exactly as the source does. `ai` is the outcome of
whichever analyzer call the taken branch makes; `alertEmail` and
`notifySent` model the shop's alert address and the notifier's result. -/
def checkPage (st : MonitorState) (scrape : ScrapeResult) (ai : AiOutcome)
    (alertEmail : Option String) (notifySent : Bool) (now : Nat) :
    MonitorState × CheckResult :=
  let previousSnapshot := (snapshotsByCapturedDesc st.snapshots).head?
  let newSnapshot : Snapshot :=
    ⟨st.nextSnapshotId, now, scrape.contentHash, scrape.textContent,
     scrape.priceValue, scrape.priceRaw, scrape.currency⟩
  let st1 : MonitorState :=
    ⟨st.snapshots ++ [newSnapshot], st.changes, st.nextSnapshotId + 1,
     st.nextChangeId⟩
  match previousSnapshot with
  | Option.none =>
      (st1, ⟨true, Option.none, Option.none⟩)
  | some prev =>
      let adjustedThresholds :=
        getConfidenceAdjustedThresholds scrape.priceConfidence
          PRICE_CHANGE_THRESHOLDS
      let priceDelta :=
        computePriceDelta prev.priceValue scrape.priceValue
          adjustedThresholds.base
      let hasPriceChange :=
        adjustedThresholds.shouldAlert && priceDelta.isMeaningful
      let hasContentChange := prev.contentHash != newSnapshot.contentHash
      if !hasContentChange && !hasPriceChange then
        (st1, ⟨false, Option.none, Option.none⟩)
      else if !hasContentChange && hasPriceChange then
        let priceAnalysis := analyzePriceChange ai priceDelta
        let priceChangeRecord : Change :=
          ⟨st.nextChangeId, prev.contentHash, newSnapshot.contentHash,
           formatPriceChange priceDelta scrape.currency,
           priceAnalysis.analysis,
           (if priceAnalysis.significance != "unknown" then
             priceAnalysis.significance else "medium"),
           "PRICE_CHANGE",
           priceDelta.oldPrice, priceDelta.newPrice,
           priceDelta.deltaAmount, priceDelta.deltaPercent, false⟩
        let storedRecord :=
          if alertEmail.isSome && notifySent then
            { priceChangeRecord with notified := true }
          else priceChangeRecord
        (⟨cleanupOldSnapshots st1.snapshots, st.changes ++ [storedRecord],
          st1.nextSnapshotId, st.nextChangeId + 1⟩,
         ⟨false, Option.none, some (priceChangeRecord.id, priceDelta)⟩)
      else
        let diff := compareSnapshots prev.textContent newSnapshot.textContent
        let changeSummary := generateChangeSummary diff
        let significance0 := determineSignificance diff
        let significance1 :=
          if hasPriceChange && significance0 == "low" then "medium"
          else significance0
        let aiResult := analyzeChanges ai
        let significance :=
          if aiResult.significance != "unknown" then aiResult.significance
          else significance1
        let changeType := if hasPriceChange then "PRICE_CHANGE" else "CONTENT"
        let change : Change :=
          ⟨st.nextChangeId, prev.contentHash, newSnapshot.contentHash,
           (if hasPriceChange then
             changeSummary ++ " | " ++ formatPriceChange priceDelta scrape.currency
           else changeSummary),
           aiResult.analysis, significance, changeType,
           (if hasPriceChange then priceDelta.oldPrice else Option.none),
           (if hasPriceChange then priceDelta.newPrice else Option.none),
           (if hasPriceChange then priceDelta.deltaAmount else Option.none),
           (if hasPriceChange then priceDelta.deltaPercent else Option.none),
           false⟩
        let storedChange :=
          if alertEmail.isSome && notifySent then { change with notified := true }
          else change
        (⟨cleanupOldSnapshots st1.snapshots, st.changes ++ [storedChange],
          st1.nextSnapshotId, st.nextChangeId + 1⟩,
         ⟨false, some change,
          (if hasPriceChange then some (change.id, priceDelta) else Option.none)⟩)

/-- A successful extraction result: a real confidence tier, and any numeric
value it carries passed validation. (A JSON-LD null price can succeed with a
null `priceValue`, so the value is not guaranteed to be present.) -/
def GoodResult (config : PriceExtractionConfig) (r : ExtractedPrice) : Prop :=
  r.confidence ≠ PriceConfidence.none ∧
    ∀ v, r.priceValue = some v → isValidPrice v config = true

/-- Concrete page used as a witness input: a single JSON-LD script holding one
product offer, and nothing else. -/
def c10page : PageModel :=
  ⟨[some [⟨"Product", some [⟨some (LdPrice.num 19.99), some "USD"⟩],
      Option.none, Option.none⟩]],
   fun _ => Option.none, fun _ => [], fun _ => []⟩

/-- Page whose only signal is a direct JSON-LD Offer with a literal null
price, as `JSON.parse` yields for `"price": null`. -/
def c10nullPage : PageModel :=
  ⟨[some [⟨"Offer", Option.none, some LdPrice.null, Option.none⟩]],
   fun _ => Option.none, fun _ => [], fun _ => []⟩


/-- Store state used as counterexample and witness input for the retention
claim: ten snapshots of one page with identical content and no price. -/
def c2state : MonitorState :=
  ⟨(List.range 10).map (fun i =>
      ⟨i, i, "h", "t", Option.none, Option.none, Option.none⟩),
   [], 10, 0⟩

/-- A scrape identical to every stored snapshot of `c2state`. -/
def c2scrape : ScrapeResult :=
  ⟨"h", "t", Option.none, Option.none, Option.none, PriceConfidence.none⟩

/-- A scrape with changed content, used by the retention witness. -/
def c2scrapeChanged : ScrapeResult :=
  ⟨"g", "u", Option.none, Option.none, Option.none, PriceConfidence.none⟩

/-- Store state for the price-drop scenario: one snapshot at price 50.00. -/
def c3state : MonitorState :=
  ⟨[⟨0, 0, "h", "t", some 50, Option.none, Option.none⟩], [], 1, 0⟩

/-- A scrape with unchanged content and a high-confidence price of 45.00. -/
def c3scrape : ScrapeResult :=
  ⟨"h", "t", some 45, some "$45.00", Option.none, PriceConfidence.high⟩

/-- Store state for the confidence-gating witness: one snapshot at 100.00. -/
def c4state : MonitorState :=
  ⟨[⟨0, 0, "h", "t", some 100, Option.none, Option.none⟩], [], 1, 0⟩

/-- A scrape with unchanged content and price 98.50 (a 1.5 percent move). -/
def c4scrape : ScrapeResult :=
  ⟨"h", "t", some 98.5, Option.none, Option.none, PriceConfidence.low⟩

/-- Store state for the analyzer-degradation witness. -/
def c7state : MonitorState :=
  ⟨[⟨0, 0, "h", "a", Option.none, Option.none, Option.none⟩], [], 1, 0⟩

/-- A scrape with changed content and no price. -/
def c7scrape : ScrapeResult :=
  ⟨"g", "a\nb", Option.none, Option.none, Option.none, PriceConfidence.none⟩

/-! ### Claim theorems for the differ and the delta engine -/

/-- Helper: filtering a list by non-membership in itself yields the empty list. -/
theorem filter_not_contains_self (l : List String) :
    l.filter (fun x => !(l.contains x)) = [] := by
  apply List.filter_eq_nil_iff.mpr
  intro a ha
  simp [ha]

/-- C5: with the monitor's default thresholds (1 percent, 0.50), a move from
100.00 to 100.30 is not meaningful and a move from 100.00 to 101.50 is. -/
theorem c5_threshold_gating :
    (computePriceDelta (some 100) (some 100.30) PRICE_CHANGE_THRESHOLDS).isMeaningful = false ∧
    (computePriceDelta (some 100) (some 101.50) PRICE_CHANGE_THRESHOLDS).isMeaningful = true := by
  constructor <;>
  · simp only [computePriceDelta, PRICE_CHANGE_THRESHOLDS, DEFAULT_THRESHOLDS, mathAbs,
      Option.getD]
    norm_num

/-- C8: comparing any text with itself reports no additions, no removals, no
changes, and a change ratio of zero; the ratio's denominator is clamped to at
least one, so this holds for the empty string as well. -/
theorem c8_idempotence (A : String) :
    (compareSnapshots A A).added = [] ∧
    (compareSnapshots A A).removed = [] ∧
    (compareSnapshots A A).hasChanges = false ∧
    (compareSnapshots A A).changeRatio = 0 ∧
    1 ≤ max (max (compareSnapshots A A).totalOldLines
      (compareSnapshots A A).totalNewLines) 1 := by
  have h := filter_not_contains_self (contentLines A)
  refine ⟨?_, ?_, ?_, ?_, ?_⟩ <;>
    simp [compareSnapshots, h]

/-- C8 witness: the idempotence theorem evaluated at the empty string. -/
theorem c8_idempotence_witness :
    (compareSnapshots "" "").added = [] ∧
    (compareSnapshots "" "").removed = [] ∧
    (compareSnapshots "" "").hasChanges = false ∧
    (compareSnapshots "" "").changeRatio = 0 ∧
    1 ≤ max (max (compareSnapshots "" "").totalOldLines
      (compareSnapshots "" "").totalNewLines) 1 :=
  c8_idempotence ""

/-- C1 counterexample: duplicate multiplicity within a side does change the
result of `compareSnapshots` — with old text empty, the new text `"a\na"`
yields `addedCount = 2` while the set difference of the distinct lines has
cardinality 1 (as witnessed by the new text `"a"` giving `addedCount = 1`). -/
theorem c1_counterexample :
    (compareSnapshots "" "a\na").addedCount = 2 ∧
    (compareSnapshots "" "a").addedCount = 1 ∧
    ((contentLines "a\na").toFinset \ (contentLines "").toFinset).card = 1 := by
  refine ⟨?_, ?_, ?_⟩ <;> decide

/-- C1 (amended): `added` and `removed` are the new/old line sequences filtered
for absence from the other side's line set, so their counts track duplicate
multiplicity; at the level of distinct lines they are exactly the set
differences, and `hasChanges` is false exactly when both sides have the same
set of distinct lines (so order and duplicate changes never affect it). -/
theorem c1_amended (oldText newText : String) :
    (compareSnapshots oldText newText).added.toFinset =
      (contentLines newText).toFinset \ (contentLines oldText).toFinset ∧
    (compareSnapshots oldText newText).removed.toFinset =
      (contentLines oldText).toFinset \ (contentLines newText).toFinset ∧
    (compareSnapshots oldText newText).addedCount =
      (compareSnapshots oldText newText).added.length ∧
    (compareSnapshots oldText newText).removedCount =
      (compareSnapshots oldText newText).removed.length ∧
    ((compareSnapshots oldText newText).hasChanges = false ↔
      (contentLines oldText).toFinset = (contentLines newText).toFinset) := by
  refine ⟨?_, ?_, rfl, rfl, ?_⟩
  · ext a
    simp [compareSnapshots, List.mem_filter]
  · ext a
    simp [compareSnapshots, List.mem_filter]
  · constructor
    · intro h
      simp [compareSnapshots] at h
      ext a
      simp only [List.mem_toFinset]
      exact ⟨fun ha => h.2 a ha, fun ha => h.1 a ha⟩
    · intro h
      have hmem : ∀ a : String,
          a ∈ contentLines oldText ↔ a ∈ contentLines newText := by
        intro a
        constructor
        · intro ha
          have : a ∈ (contentLines newText).toFinset := by
            rw [← h]; exact List.mem_toFinset.mpr ha
          exact List.mem_toFinset.mp this
        · intro ha
          have : a ∈ (contentLines oldText).toFinset := by
            rw [h]; exact List.mem_toFinset.mpr ha
          exact List.mem_toFinset.mp this
      simp [compareSnapshots]
      exact ⟨fun a ha => (hmem a).mpr ha, fun a ha => (hmem a).mp ha⟩

/-- C1 amended witness: the amended characterisation evaluated at two concrete
texts with duplicated lines. -/
theorem c1_amended_witness :
    (compareSnapshots "a\nb" "b\nb\nc").added.toFinset =
      (contentLines "b\nb\nc").toFinset \ (contentLines "a\nb").toFinset ∧
    (compareSnapshots "a\nb" "b\nb\nc").removed.toFinset =
      (contentLines "a\nb").toFinset \ (contentLines "b\nb\nc").toFinset ∧
    (compareSnapshots "a\nb" "b\nb\nc").addedCount =
      (compareSnapshots "a\nb" "b\nb\nc").added.length ∧
    (compareSnapshots "a\nb" "b\nb\nc").removedCount =
      (compareSnapshots "a\nb" "b\nb\nc").removed.length ∧
    ((compareSnapshots "a\nb" "b\nb\nc").hasChanges = false ↔
      (contentLines "a\nb").toFinset = (contentLines "b\nb\nc").toFinset) :=
  c1_amended "a\nb" "b\nb\nc"

/-- The digit string of a nonempty digit list is nonempty. -/
theorem digitsStr_ne_nil (x : List (Fin 10)) (h : x ≠ []) :
    digitsStr x ≠ [] := by
  cases x with
  | nil => exact absurd rfl h
  | cons d rest => simp [digitsStr]

/-- C9: the legacy differ and the app differ are extensionally equal — the two
`compareSnapshots` functions agree on every input pair, and the two
`determineSignificance` and `generateChangeSummary` functions agree on every
diff result. -/
theorem c9_differ_equivalence :
    (∀ oldText newText,
      Legacy.compareSnapshots oldText newText = compareSnapshots oldText newText) ∧
    (∀ diff, Legacy.determineSignificance diff = determineSignificance diff) ∧
    (∀ diff, Legacy.generateChangeSummary diff = generateChangeSummary diff) :=
  ⟨fun _ _ => rfl, fun _ => rfl, fun _ => rfl⟩

/-- Helper: a property verified by an option-valued search function holds of
whatever `findSome?` returns. -/
theorem findSome?_forall {α β : Type} {p : β → Prop} (f : α → Option β)
    (hf : ∀ a b, f a = some b → p b) :
    ∀ (l : List α) (b : β), l.findSome? f = some b → p b := by
  intro l
  induction l with
  | nil =>
      intro b h
      rw [show ([] : List α).findSome? f = Option.none from rfl] at h
      cases h
  | cons a as ih =>
      intro b h
      rw [List.findSome?_cons] at h
      cases hfa : f a with
      | none =>
          rw [hfa] at h
          exact ih b h
      | some c =>
          rw [hfa] at h
          injection h with h2
          subst h2
          exact hf a c hfa

/-- Helper: the JSON-LD offer check only returns validated results. -/
theorem checkLdOffer_good (config : PriceExtractionConfig) (offer : LdOffer)
    (r : ExtractedPrice) (h : checkLdOffer config offer = some r) :
    GoodResult config r := by
  unfold checkLdOffer at h
  split at h
  · cases h
  · next p heq =>
      split at h
      · next hguard =>
          injection h with h2
          subst h2
          rw [Bool.and_eq_true] at hguard
          refine ⟨by simp, ?_⟩
          intro v hv
          simp only at hv
          cases hjv : p.jsValue with
          | num q =>
              rw [hjv] at hv
              have hval := hguard.2
              rw [hjv] at hval
              simp only [JsPriceVal.toPriceValue] at hv
              injection hv with h3
              subst h3
              simpa [jsNumValidPrice] using hval
          | nan =>
              have hna := hguard.1
              rw [hjv] at hna
              simp [JsPriceVal.isNanB] at hna
          | nullv =>
              rw [hjv] at hv
              simp [JsPriceVal.toPriceValue] at hv
      · cases h

/-- Helper: the JSON-LD product block only returns validated results. -/
theorem checkLdItemProduct_good (config : PriceExtractionConfig) (item : LdItem)
    (r : ExtractedPrice) (h : checkLdItemProduct config item = some r) :
    GoodResult config r := by
  unfold checkLdItemProduct at h
  split at h
  · split at h
    · exact findSome?_forall _ (checkLdOffer_good config) _ _ h
    · cases h
  · cases h

/-- Helper: the JSON-LD direct-offer block only returns validated results. -/
theorem checkLdItemOffer_good (config : PriceExtractionConfig) (item : LdItem)
    (r : ExtractedPrice) (h : checkLdItemOffer config item = some r) :
    GoodResult config r := by
  unfold checkLdItemOffer at h
  split at h
  · split at h
    · next p heq =>
        split at h
        · next hguard =>
            injection h with h2
            subst h2
            rw [Bool.and_eq_true] at hguard
            refine ⟨by simp, ?_⟩
            intro v hv
            simp only at hv
            cases hjv : p.jsValue with
            | num q =>
                rw [hjv] at hv
                have hval := hguard.2
                rw [hjv] at hval
                simp only [JsPriceVal.toPriceValue] at hv
                injection hv with h3
                subst h3
                simpa [jsNumValidPrice] using hval
            | nan =>
                have hna := hguard.1
                rw [hjv] at hna
                simp [JsPriceVal.isNanB] at hna
            | nullv =>
                rw [hjv] at hv
                simp [JsPriceVal.toPriceValue] at hv
        · cases h
    · cases h
  · cases h

/-- Helper: the JSON-LD item check only returns validated results. -/
theorem checkLdItem_good (config : PriceExtractionConfig) (item : LdItem)
    (r : ExtractedPrice) (h : checkLdItem config item = some r) :
    GoodResult config r := by
  unfold checkLdItem at h
  split at h
  · next r0 heq =>
      injection h with h2
      subst h2
      exact checkLdItemProduct_good config item _ heq
  · exact checkLdItemOffer_good config item _ h

/-- Helper: the JSON-LD strategy only returns validated results. -/
theorem extractFromJsonLd_good (scripts : List (Option (List LdItem)))
    (config : PriceExtractionConfig) (r : ExtractedPrice)
    (h : extractFromJsonLd scripts config = some r) : GoodResult config r := by
  unfold extractFromJsonLd at h
  refine findSome?_forall _ ?_ _ _ h
  intro script b hb
  cases script with
  | none => cases hb
  | some items => exact findSome?_forall _ (checkLdItem_good config) _ _ hb

/-- Helper: the per-selector meta-tag check only returns validated results. -/
theorem checkMetaSelector_good (page : PageModel)
    (config : PriceExtractionConfig) (selector : String) (r : ExtractedPrice)
    (h : checkMetaSelector page config selector = some r) :
    GoodResult config r := by
  unfold checkMetaSelector at h
  split at h
  · cases h
  · split at h
    · cases h
    · split at h
      · split at h
        · next parsed _ =>
            split at h
            · next hvalid =>
                injection h with h2
                subst h2
                exact ⟨by simp, fun v hv => by
                  injection hv with h3; exact h3 ▸ hvalid⟩
            · cases h
        · cases h
      · cases h

/-- Helper: the meta-tag strategy only returns validated results. -/
theorem extractFromMetaTags_good (page : PageModel)
    (config : PriceExtractionConfig) (r : ExtractedPrice)
    (h : extractFromMetaTags page config = some r) : GoodResult config r := by
  unfold extractFromMetaTags at h
  exact findSome?_forall _ (checkMetaSelector_good page config) _ _ h

/-- Helper: the attribute block of the selector check only returns validated
results. -/
theorem checkSelElemAttr_good (config : PriceExtractionConfig)
    (selector : String) (el : SelElem) (r : ExtractedPrice)
    (h : checkSelElemAttr config selector el = some r) : GoodResult config r := by
  unfold checkSelElemAttr at h
  split at h
  · split at h
    · split at h
      · next parsed _ =>
          split at h
          · next hvalid =>
              injection h with h2
              subst h2
              exact ⟨by simp, fun v hv => by
                injection hv with h3; exact h3 ▸ hvalid⟩
          · cases h
      · cases h
    · cases h
  · cases h

/-- Helper: the text block of the selector check only returns validated
results. -/
theorem checkSelElemText_good (config : PriceExtractionConfig)
    (selector : String) (el : SelElem) (r : ExtractedPrice)
    (h : checkSelElemText config selector el = some r) : GoodResult config r := by
  unfold checkSelElemText at h
  split at h
  · split at h
    · next parsed _ =>
        split at h
        · next hvalid =>
            injection h with h2
            subst h2
            exact ⟨by simp, fun v hv => by
              injection hv with h3; exact h3 ▸ hvalid⟩
        · cases h
    · cases h
  · cases h

/-- Helper: the selector element check only returns validated results. -/
theorem checkSelElem_good (config : PriceExtractionConfig) (selector : String)
    (el : SelElem) (r : ExtractedPrice)
    (h : checkSelElem config selector el = some r) : GoodResult config r := by
  unfold checkSelElem at h
  split at h
  · next r0 heq =>
      injection h with h2
      subst h2
      exact checkSelElemAttr_good config selector el _ heq
  · exact checkSelElemText_good config selector el _ h

/-- Helper: the structural-selector strategy only returns validated results. -/
theorem extractFromSelectors_good (page : PageModel)
    (config : PriceExtractionConfig) (r : ExtractedPrice)
    (h : extractFromSelectors page config = some r) : GoodResult config r := by
  unfold extractFromSelectors at h
  refine findSome?_forall _ ?_ _ _ h
  intro selector b hb
  exact findSome?_forall _ (checkSelElem_good config selector) _ _ hb

/-- Helper: every regex candidate passed validation. -/
theorem regexCandidates_valid (matchList : List String)
    (config : PriceExtractionConfig) :
    ∀ r ∈ regexCandidates matchList config, isValidPrice r.value config = true := by
  intro r hr
  unfold regexCandidates at hr
  rw [List.mem_filterMap] at hr
  obtain ⟨m, _, hm⟩ := hr
  split at hm
  · next parsed heq =>
      split at hm
      · next hvalid =>
          injection hm with h2
          subst h2
          exact hvalid
      · cases hm
  · cases hm

/-- Helper: the most-common scan returns its initial best or a list member. -/
theorem pickMostCommon_mem (count : ℚ → Nat) :
    ∀ (l : List RegexPrice) (best : RegexPrice) (n : Nat),
      pickMostCommon count l best n = best ∨ pickMostCommon count l best n ∈ l := by
  intro l
  induction l with
  | nil => intro best n; left; rfl
  | cons p rest ih =>
      intro best n
      unfold pickMostCommon
      split
      · rcases ih p (count p.value) with h | h
        · right; rw [h]; exact List.mem_cons_self _ _
        · right; exact List.mem_cons_of_mem _ h
      · rcases ih best n with h | h
        · left; exact h
        · right; exact List.mem_cons_of_mem _ h

/-- Helper: the regex strategy only returns validated results. -/
theorem extractFromRegex_good (matchList : List String)
    (config : PriceExtractionConfig) (r : ExtractedPrice)
    (h : extractFromRegex matchList config = some r) : GoodResult config r := by
  unfold extractFromRegex extractFromRegexFrom at h
  split at h
  · cases h
  · next p0 tail heq =>
      injection h with h2
      subst h2
      have hmem : bestRegexPrice (regexCandidates matchList config) p0 ∈
          regexCandidates matchList config := by
        unfold bestRegexPrice
        rcases pickMostCommon_mem _ (regexCandidates matchList config) p0 1 with hc | hc
        · rw [hc, heq]; exact List.mem_cons_self _ _
        · exact hc
      refine ⟨by simp, fun v hv => ?_⟩
      injection hv with h3
      exact h3 ▸ regexCandidates_valid matchList config _ hmem

/-- Helper: the merged configuration has the same effective bounds as the
caller's configuration with source defaults. -/
theorem mergeConfig_bounds (config : PriceExtractionConfig) :
    (mergeConfig config).minPrice.getD 0.01 = config.minPrice.getD 0.01 ∧
    (mergeConfig config).maxPrice.getD 1000000 = config.maxPrice.getD 1000000 := by
  unfold mergeConfig DEFAULT_CONFIG
  constructor
  · cases config.minPrice <;> rfl
  · cases config.maxPrice <;> rfl

/-- Helper: a good result under the merged configuration satisfies the
invariant claimed of `extractPrice`. -/
theorem invariant_of_good (config : PriceExtractionConfig) (r : ExtractedPrice)
    (hg : GoodResult (mergeConfig config) r) :
    (r.confidence = PriceConfidence.none → r.priceValue = Option.none) ∧
    ∀ v, r.priceValue = some v →
      (config.minPrice.getD 0.01 ≤ v ∧ v ≤ config.maxPrice.getD 1000000) ∧
      (r.confidence = PriceConfidence.high ∨
       r.confidence = PriceConfidence.medium ∨
       r.confidence = PriceConfidence.low) := by
  obtain ⟨hconf, hvalidAll⟩ := hg
  have hbounds := mergeConfig_bounds config
  constructor
  · intro h0; exact absurd h0 hconf
  · intro w hw
    have hvalid := hvalidAll w hw
    constructor
    · unfold isValidPrice at hvalid
      rw [Bool.and_eq_true, decide_eq_true_iff, decide_eq_true_iff] at hvalid
      rw [hbounds.1, hbounds.2] at hvalid
      exact hvalid
    · cases hc : r.confidence
      · exact Or.inl rfl
      · exact Or.inr (Or.inl rfl)
      · exact Or.inr (Or.inr rfl)
      · exact absurd hc hconf

/-- Helper: `extractPrice` either returns a good result of some strategy or
the empty `none` record. -/
theorem extractPrice_cases (page : PageModel) (textContent : Option String)
    (config : PriceExtractionConfig) :
    GoodResult (mergeConfig config) (extractPrice page textContent config) ∨
    extractPrice page textContent config =
      ⟨Option.none, Option.none, Option.none, PriceConfidence.none, "none"⟩ := by
  cases hj : extractFromJsonLd page.jsonLdScripts (mergeConfig config) with
  | some r =>
      left
      have hrw : extractPrice page textContent config = r := by
        simp only [extractPrice, hj]
      rw [hrw]
      exact extractFromJsonLd_good _ _ _ hj
  | none =>
  cases hm : extractFromMetaTags page (mergeConfig config) with
  | some r =>
      left
      have hrw : extractPrice page textContent config = r := by
        simp only [extractPrice, hj, hm]
      rw [hrw]
      exact extractFromMetaTags_good _ _ _ hm
  | none =>
  cases hs : extractFromSelectors page (mergeConfig config) with
  | some r =>
      left
      have hrw : extractPrice page textContent config = r := by
        simp only [extractPrice, hj, hm, hs]
      rw [hrw]
      exact extractFromSelectors_good _ _ _ hs
  | none =>
  cases textContent with
  | none =>
      right
      simp only [extractPrice, hj, hm, hs]
  | some tc =>
      by_cases htc : (tc != "") = true
      · cases hr : extractFromRegex (page.regexMatches tc) (mergeConfig config) with
        | some r =>
            left
            have hrw : extractPrice page (some tc) config = r := by
              simp only [extractPrice, hj, hm, hs, htc, if_true, hr]
            rw [hrw]
            exact extractFromRegex_good _ _ _ hr
        | none =>
            right
            simp only [extractPrice, hj, hm, hs, htc, if_true, hr]
      · right
        simp only [extractPrice, hj, hm, hs]
        rw [if_neg htc]

/-- C10 (amended): for every page, optional text and configuration,
`extractPrice` returns a null price whenever its confidence is `none`, and
every non-null price lies within the configured valid range (defaults 0.01
and 1000000) and carries confidence high, medium or low. The converse fails:
a JSON-LD literal `null` price passes the `!== undefined` and `isNaN` guards
and is reported with a null price at confidence `high`. -/
theorem c10_extract_price_invariant (page : PageModel)
    (textContent : Option String) (config : PriceExtractionConfig) :
    ((extractPrice page textContent config).confidence = PriceConfidence.none →
      (extractPrice page textContent config).priceValue = Option.none) ∧
    ∀ v, (extractPrice page textContent config).priceValue = some v →
      (config.minPrice.getD 0.01 ≤ v ∧ v ≤ config.maxPrice.getD 1000000) ∧
      ((extractPrice page textContent config).confidence = PriceConfidence.high ∨
       (extractPrice page textContent config).confidence = PriceConfidence.medium ∨
       (extractPrice page textContent config).confidence = PriceConfidence.low) := by
  rcases extractPrice_cases page textContent config with hg | hn
  · exact invariant_of_good config _ hg
  · rw [hn]
    exact ⟨by simp, by simp⟩

/-- C10 witness: the invariant evaluated at a concrete page whose only
signal is a JSON-LD product offer. -/
theorem c10_extract_price_invariant_witness :
    ((extractPrice c10page (some "t") ⟨Option.none, Option.none⟩).confidence = PriceConfidence.none →
      (extractPrice c10page (some "t") ⟨Option.none, Option.none⟩).priceValue = Option.none) ∧
    ∀ v, (extractPrice c10page (some "t") ⟨Option.none, Option.none⟩).priceValue = some v →
      ((⟨Option.none, Option.none⟩ : PriceExtractionConfig).minPrice.getD 0.01 ≤ v ∧
        v ≤ (⟨Option.none, Option.none⟩ : PriceExtractionConfig).maxPrice.getD 1000000) ∧
      ((extractPrice c10page (some "t") ⟨Option.none, Option.none⟩).confidence = PriceConfidence.high ∨
       (extractPrice c10page (some "t") ⟨Option.none, Option.none⟩).confidence = PriceConfidence.medium ∨
       (extractPrice c10page (some "t") ⟨Option.none, Option.none⟩).confidence = PriceConfidence.low) :=
  c10_extract_price_invariant c10page (some "t") ⟨Option.none, Option.none⟩

/-- C10 counterexample to the original biconditional: a JSON-LD `price: null`
passes `offer.price !== undefined` and `!isNaN(value)` (JavaScript
`isNaN(null)` is false), and with `minPrice 0` the coerced comparison
`null >= 0` also passes, so `extractPrice` returns a null `priceValue` at
confidence `high`, not `none`. -/
theorem c10_counterexample :
    (extractPrice c10nullPage Option.none ⟨some 0, some 1000000⟩).priceValue
        = Option.none ∧
    (extractPrice c10nullPage Option.none ⟨some 0, some 1000000⟩).confidence
        = PriceConfidence.high ∧
    PriceConfidence.high ≠ PriceConfidence.none := by
  refine ⟨rfl, rfl, by decide⟩

/-- Helper: when the stored ids are distinct, pruning leaves at most ten
snapshots (and a store that was already within the bound is untouched). -/
theorem cleanup_length_le (snaps : List Snapshot)
    (hid : (snaps.map Snapshot.id).Nodup) :
    (cleanupOldSnapshots snaps).length ≤ 10 := by
  unfold cleanupOldSnapshots
  have hperm : List.Perm (snapshotsByCapturedDesc snaps) snaps :=
    List.perm_insertionSort _ _
  by_cases h10 : 0 < ((snapshotsByCapturedDesc snaps).drop 10).length
  · rw [if_pos h10]
    have hkd : (snapshotsByCapturedDesc snaps).take 10 ++
        (snapshotsByCapturedDesc snaps).drop 10 = snapshotsByCapturedDesc snaps :=
      List.take_append_drop 10 _
    have hsubl : List.Sublist ((snaps.filter (fun s =>
        !(((((snapshotsByCapturedDesc snaps).drop 10).map Snapshot.id)).contains s.id))).map Snapshot.id)
        (snaps.map Snapshot.id) :=
      (List.filter_sublist snaps).map Snapshot.id
    have hnodup_rem := hid.sublist hsubl
    have hsubset : ∀ x ∈ (snaps.filter (fun s =>
        !(((((snapshotsByCapturedDesc snaps).drop 10).map Snapshot.id)).contains s.id))).map Snapshot.id,
        x ∈ ((snapshotsByCapturedDesc snaps).take 10).map Snapshot.id := by
      intro x hx
      rw [List.mem_map] at hx
      obtain ⟨s, hs, rfl⟩ := hx
      rw [List.mem_filter] at hs
      obtain ⟨hsnaps, hps⟩ := hs
      have hdel : s.id ∉ ((snapshotsByCapturedDesc snaps).drop 10).map Snapshot.id := by
        simpa using hps
      have hmem_sorted : s ∈ snapshotsByCapturedDesc snaps := hperm.mem_iff.mpr hsnaps
      rw [← hkd] at hmem_sorted
      rcases List.mem_append.mp hmem_sorted with hk | hd
      · exact List.mem_map.mpr ⟨s, hk, rfl⟩
      · exact absurd (List.mem_map.mpr ⟨s, hd, rfl⟩) hdel
    have hsubperm := List.subperm_of_subset hnodup_rem hsubset
    have hlen := hsubperm.length_le
    rw [List.length_map, List.length_map] at hlen
    calc _ ≤ ((snapshotsByCapturedDesc snaps).take 10).length := hlen
      _ ≤ 10 := by
          rw [List.length_take]
          exact min_le_left _ _
  · rw [if_neg h10]
    have h1 : ((snapshotsByCapturedDesc snaps).drop 10).length = 0 := by omega
    rw [List.length_drop] at h1
    have h2 : (snapshotsByCapturedDesc snaps).length ≤ 10 := by omega
    calc snaps.length = (snapshotsByCapturedDesc snaps).length := (hperm.length_eq).symm
      _ ≤ 10 := h2

/-- Helper: pruning never deletes a snapshot whose capture time is strictly
greater than that of every other stored snapshot. -/
theorem cleanup_keeps_latest (snaps : List Snapshot)
    (hid : (snaps.map Snapshot.id).Nodup) (smax : Snapshot)
    (hmem : smax ∈ snaps)
    (hmax : ∀ t ∈ snaps, t.id ≠ smax.id → t.capturedAt < smax.capturedAt) :
    smax ∈ cleanupOldSnapshots snaps := by
  unfold cleanupOldSnapshots
  have hperm : List.Perm (snapshotsByCapturedDesc snaps) snaps :=
    List.perm_insertionSort _ _
  by_cases h10 : 0 < ((snapshotsByCapturedDesc snaps).drop 10).length
  · rw [if_pos h10]
    rw [List.mem_filter]
    refine ⟨hmem, ?_⟩
    simp only [Bool.not_eq_true', ← Bool.not_eq_true]
    intro hcontains
    have hidmem : smax.id ∈ ((snapshotsByCapturedDesc snaps).drop 10).map Snapshot.id := by
      simpa using hcontains
    rw [List.mem_map] at hidmem
    obtain ⟨d, hd_del, hd_id⟩ := hidmem
    have hd_sorted : d ∈ snapshotsByCapturedDesc snaps := List.mem_of_mem_drop hd_del
    have hd_snaps : d ∈ snaps := hperm.mem_iff.mp hd_sorted
    have hinj := List.inj_on_of_nodup_map hid
    have hd_eq : d = smax := hinj hd_snaps hmem hd_id
    subst hd_eq
    -- d (= the latest snapshot) sits in the dropped suffix; contradiction with
    -- sortedness and the strict maximality of its capture time.
    have hsorted : List.Sorted capturedDesc (snapshotsByCapturedDesc snaps) :=
      List.sorted_insertionSort _ _
    have hnodup_snaps : snaps.Nodup := List.Nodup.of_map _ hid
    have hnodup_sorted : (snapshotsByCapturedDesc snaps).Nodup :=
      (hperm.nodup_iff).mpr hnodup_snaps
    have hkd : (snapshotsByCapturedDesc snaps).take 10 ++
        (snapshotsByCapturedDesc snaps).drop 10 = snapshotsByCapturedDesc snaps :=
      List.take_append_drop 10 _
    have hkeep_len : ((snapshotsByCapturedDesc snaps).take 10).length = 10 := by
      rw [List.length_take]
      rw [List.length_drop] at h10
      omega
    obtain ⟨k0, hk0⟩ : ∃ k0, k0 ∈ (snapshotsByCapturedDesc snaps).take 10 := by
      apply List.exists_mem_of_length_pos
      omega
    have hk0_sorted : k0 ∈ snapshotsByCapturedDesc snaps := List.mem_of_mem_take hk0
    have hk0_snaps : k0 ∈ snaps := hperm.mem_iff.mp hk0_sorted
    have hrel : capturedDesc k0 d := by
      have hpw := hsorted
      rw [List.Sorted, ← hkd, List.pairwise_append] at hpw
      exact hpw.2.2 k0 hk0 d hd_del
    have hdisj : List.Disjoint ((snapshotsByCapturedDesc snaps).take 10)
        ((snapshotsByCapturedDesc snaps).drop 10) := by
      have := hnodup_sorted
      rw [← hkd] at this
      exact List.disjoint_of_nodup_append this
    have hk0_ne : k0 ≠ d := by
      intro hEq
      subst hEq
      exact hdisj hk0 hd_del
    have hk0_id : k0.id ≠ d.id := by
      intro hEq
      exact hk0_ne (hinj hk0_snaps hd_snaps hEq)
    have := hmax k0 hk0_snaps hk0_id
    exact absurd hrel (by unfold capturedDesc; omega)
  · rw [if_neg h10]
    exact hmem


/-- Helper: whenever `checkPage` reports a change (content or price), the
resulting snapshot store is the pruned extension of the old store by the
newly captured snapshot. -/
theorem checkPage_change_snapshots (st : MonitorState) (scrape : ScrapeResult)
    (ai : AiOutcome) (alertEmail : Option String) (notifySent : Bool) (now : Nat) :
    ((checkPage st scrape ai alertEmail notifySent now).2.change.isSome = true ∨
     (checkPage st scrape ai alertEmail notifySent now).2.priceChange.isSome = true) →
    (checkPage st scrape ai alertEmail notifySent now).1.snapshots =
      cleanupOldSnapshots (st.snapshots ++
        [⟨st.nextSnapshotId, now, scrape.contentHash, scrape.textContent,
          scrape.priceValue, scrape.priceRaw, scrape.currency⟩]) := by
  simp only [checkPage]
  split
  · intro hcp
    simp at hcp
  · split
    · intro hcp
      simp at hcp
    · split
      · intro _
        rfl
      · intro _
        rfl

/-- C2 counterexample: a check that detects nothing does not prune — starting
from ten stored snapshots, an unchanged scrape leaves eleven snapshots in the
store after a successfully completed `checkPage` call. -/
theorem c2_counterexample :
    (checkPage c2state c2scrape AiOutcome.noClient Option.none false 10).1.snapshots.length = 11 ∧
    10 < 11 := by
  constructor
  · decide
  · decide

/-- C2 (amended): after every `checkPage` call that detects a change (non-null
`change` or `priceChange` in its result), at most ten snapshots remain for the
page and the just-captured snapshot — the one the next check will diff
against — is still stored; calls that detect nothing do not prune and can
leave more than ten. -/
theorem c2_amended (st : MonitorState) (scrape : ScrapeResult)
    (ai : AiOutcome) (alertEmail : Option String) (notifySent : Bool) (now : Nat)
    (hid : (st.snapshots.map Snapshot.id).Nodup)
    (hfresh : ∀ s ∈ st.snapshots, s.id < st.nextSnapshotId)
    (hnow : ∀ s ∈ st.snapshots, s.capturedAt < now) :
    ((checkPage st scrape ai alertEmail notifySent now).2.change.isSome = true ∨
     (checkPage st scrape ai alertEmail notifySent now).2.priceChange.isSome = true) →
    ((checkPage st scrape ai alertEmail notifySent now).1.snapshots.length ≤ 10 ∧
     ∃ s ∈ (checkPage st scrape ai alertEmail notifySent now).1.snapshots,
       s.id = st.nextSnapshotId ∧ s.capturedAt = now) := by
  intro hcp
  have hshape := checkPage_change_snapshots st scrape ai alertEmail notifySent now hcp
  rw [hshape]
  have hid2 : ((st.snapshots ++
      [(⟨st.nextSnapshotId, now, scrape.contentHash, scrape.textContent,
        scrape.priceValue, scrape.priceRaw, scrape.currency⟩ : Snapshot)]).map
        Snapshot.id).Nodup := by
    rw [List.map_append, List.nodup_append]
    refine ⟨hid, List.nodup_singleton _, ?_⟩
    intro x hx hx2
    simp only [List.map_cons, List.map_nil, List.mem_singleton] at hx2
    rw [List.mem_map] at hx
    obtain ⟨s, hs, rfl⟩ := hx
    have := hfresh s hs
    simp only [hx2] at this
    omega
  constructor
  · exact cleanup_length_le _ hid2
  · refine ⟨⟨st.nextSnapshotId, now, scrape.contentHash, scrape.textContent,
      scrape.priceValue, scrape.priceRaw, scrape.currency⟩, ?_, rfl, rfl⟩
    apply cleanup_keeps_latest _ hid2 _ (by simp)
    intro t ht htid
    rcases List.mem_append.mp ht with h1 | h2
    · exact hnow t h1
    · rw [List.mem_singleton] at h2
      subst h2
      exact absurd rfl htid


/-- Helper: the 50.00 to 45.00 delta under the monitor's base thresholds. -/
theorem priceDelta_50_45 :
    computePriceDelta (some 50) (some 45) (⟨some 1, some 0.5⟩ : PriceThresholds) =
      ⟨some 50, some 45, some (-5), some (-10), true, "decrease"⟩ := by
  simp only [computePriceDelta, DEFAULT_THRESHOLDS, mathAbs, Option.getD]
  norm_num

/-- Helper: `analyzePriceChange` only ever returns the four verdict strings. -/
theorem analyzePriceChange_significance_cases (ai : AiOutcome) (d : PriceDelta) :
    (analyzePriceChange ai d).significance = "high" ∨
    (analyzePriceChange ai d).significance = "medium" ∨
    (analyzePriceChange ai d).significance = "low" ∨
    (analyzePriceChange ai d).significance = "unknown" := by
  unfold analyzePriceChange
  cases ai with
  | noClient => simp
  | apiError m => simp
  | response t =>
      simp only []
      split
      · simp
      · split
        · simp
        · split
          · simp
          · split
            · simp
            · simp

/-- Helper: with a previous snapshot, unchanged content and a gated meaningful
price delta, `checkPage` takes the price-only branch: it appends exactly one
change record tagged `PRICE_CHANGE` carrying the delta's prices and the
analyzer verdict (defaulted to `medium` when `unknown`). -/
theorem checkPage_priceOnly_spec (st : MonitorState) (scrape : ScrapeResult)
    (ai : AiOutcome) (alertEmail : Option String) (notifySent : Bool) (now : Nat)
    (prev : Snapshot)
    (hprev : (snapshotsByCapturedDesc st.snapshots).head? = some prev)
    (hhash : prev.contentHash = scrape.contentHash)
    (hgate : (getConfidenceAdjustedThresholds scrape.priceConfidence
        PRICE_CHANGE_THRESHOLDS).shouldAlert = true)
    (hmean : (computePriceDelta prev.priceValue scrape.priceValue
        (getConfidenceAdjustedThresholds scrape.priceConfidence
          PRICE_CHANGE_THRESHOLDS).base).isMeaningful = true) :
    ∃ c : Change,
      (checkPage st scrape ai alertEmail notifySent now).1.changes =
        st.changes ++ [c] ∧
      (checkPage st scrape ai alertEmail notifySent now).2.change = Option.none ∧
      (checkPage st scrape ai alertEmail notifySent now).2.priceChange =
        some (c.id, computePriceDelta prev.priceValue scrape.priceValue
          (getConfidenceAdjustedThresholds scrape.priceConfidence
            PRICE_CHANGE_THRESHOLDS).base) ∧
      c.changeType = "PRICE_CHANGE" ∧
      c.oldPrice = (computePriceDelta prev.priceValue scrape.priceValue
          (getConfidenceAdjustedThresholds scrape.priceConfidence
            PRICE_CHANGE_THRESHOLDS).base).oldPrice ∧
      c.newPrice = (computePriceDelta prev.priceValue scrape.priceValue
          (getConfidenceAdjustedThresholds scrape.priceConfidence
            PRICE_CHANGE_THRESHOLDS).base).newPrice ∧
      c.significance =
        (if (analyzePriceChange ai (computePriceDelta prev.priceValue
            scrape.priceValue (getConfidenceAdjustedThresholds
              scrape.priceConfidence PRICE_CHANGE_THRESHOLDS).base)).significance
            != "unknown" then
          (analyzePriceChange ai (computePriceDelta prev.priceValue
            scrape.priceValue (getConfidenceAdjustedThresholds
              scrape.priceConfidence PRICE_CHANGE_THRESHOLDS).base)).significance
        else "medium") := by
  simp only [checkPage, hprev, hhash, hgate, hmean, bne_self_eq_false,
    Bool.not_false, Bool.not_true, Bool.true_and, Bool.and_true,
    Bool.false_and, Bool.and_false, if_true, if_false]
  by_cases hn : (alertEmail.isSome && notifySent) = true
  · refine ⟨_, rfl, rfl, ?_, ?_, ?_, ?_, ?_⟩ <;> simp [hn]
  · rw [Bool.not_eq_true] at hn
    refine ⟨_, rfl, rfl, ?_, ?_, ?_, ?_, ?_⟩ <;> simp [hn]


/-- C3 (amended): content unchanged and price moving 50.00 to 45.00 at high
confidence creates a Change with `changeType = PRICE_CHANGE`,
`oldPrice = 50`, `newPrice = 45`, and significance equal to the analyzer
verdict when definitive and `medium` otherwise — hence at least
`medium` for every analyzer outcome except an explicit low verdict. -/
theorem c3_amended (st : MonitorState) (scrape : ScrapeResult)
    (ai : AiOutcome) (alertEmail : Option String) (notifySent : Bool) (now : Nat)
    (prev : Snapshot)
    (hprev : (snapshotsByCapturedDesc st.snapshots).head? = some prev)
    (hhash : prev.contentHash = scrape.contentHash)
    (hold : prev.priceValue = some 50)
    (hnew : scrape.priceValue = some 45)
    (hconf : scrape.priceConfidence = PriceConfidence.high) :
    ∃ c : Change,
      (checkPage st scrape ai alertEmail notifySent now).1.changes =
        st.changes ++ [c] ∧
      (checkPage st scrape ai alertEmail notifySent now).2.priceChange.isSome = true ∧
      c.changeType = "PRICE_CHANGE" ∧
      c.oldPrice = some 50 ∧
      c.newPrice = some 45 ∧
      c.significance =
        (if (analyzePriceChange ai (computePriceDelta (some 50) (some 45)
            PRICE_CHANGE_THRESHOLDS)).significance != "unknown" then
          (analyzePriceChange ai (computePriceDelta (some 50) (some 45)
            PRICE_CHANGE_THRESHOLDS)).significance
        else "medium") ∧
      ((analyzePriceChange ai (computePriceDelta (some 50) (some 45)
          PRICE_CHANGE_THRESHOLDS)).significance ≠ "low" →
        (c.significance = "medium" ∨ c.significance = "high")) := by
  have hbase : (getConfidenceAdjustedThresholds scrape.priceConfidence
      PRICE_CHANGE_THRESHOLDS).base = PRICE_CHANGE_THRESHOLDS := by
    rw [hconf]
    rfl
  have hdelta : computePriceDelta prev.priceValue scrape.priceValue
      (getConfidenceAdjustedThresholds scrape.priceConfidence
        PRICE_CHANGE_THRESHOLDS).base =
      ⟨some 50, some 45, some (-5), some (-10), true, "decrease"⟩ := by
    rw [hbase, hold, hnew]
    exact priceDelta_50_45
  have hgate : (getConfidenceAdjustedThresholds scrape.priceConfidence
      PRICE_CHANGE_THRESHOLDS).shouldAlert = true := by
    rw [hconf]
    rfl
  have hmean : (computePriceDelta prev.priceValue scrape.priceValue
      (getConfidenceAdjustedThresholds scrape.priceConfidence
        PRICE_CHANGE_THRESHOLDS).base).isMeaningful = true := by
    rw [hdelta]
  obtain ⟨c, hch, hcn, hpc, hct, hop2, hnp2, hsig⟩ :=
    checkPage_priceOnly_spec st scrape ai alertEmail notifySent now prev
      hprev hhash hgate hmean
  have hdelta2 : computePriceDelta prev.priceValue scrape.priceValue
      (getConfidenceAdjustedThresholds scrape.priceConfidence
        PRICE_CHANGE_THRESHOLDS).base =
      computePriceDelta (some 50) (some 45) PRICE_CHANGE_THRESHOLDS := by
    rw [hbase, hold, hnew]
  refine ⟨c, hch, ?_, hct, ?_, ?_, ?_, ?_⟩
  · rw [hpc]; rfl
  · rw [hop2, hdelta]
  · rw [hnp2, hdelta]
  · rw [hsig, hdelta2]
  · intro hne
    rw [hsig, hdelta2]
    rcases analyzePriceChange_significance_cases ai
        (computePriceDelta (some 50) (some 45) PRICE_CHANGE_THRESHOLDS) with
      h | h | h | h
    · rw [h]; right; rfl
    · rw [h]; left; rfl
    · exact absurd h hne
    · rw [h]; left; rfl

/-- C3 counterexample: with content unchanged and the price moving 50.00 to
45.00 at high confidence, an analyzer response stating a low verdict yields a
created Change whose significance is `low`, not at least `medium` —
so the claim fails for that analyzer result. -/
theorem c3_counterexample :
    ((checkPage c3state c3scrape (AiOutcome.response "significance: low")
        Option.none false 1).1.changes.map Change.significance) = ["low"] ∧
    (checkPage c3state c3scrape (AiOutcome.response "significance: low")
        Option.none false 1).2.priceChange.isSome = true ∧
    ("low" : String) ≠ "medium" ∧ ("low" : String) ≠ "high" := by
  obtain ⟨c, hch, hcn, hpc, hct, hop2, hnp2, hsig⟩ :=
    checkPage_priceOnly_spec c3state c3scrape
      (AiOutcome.response "significance: low") Option.none false 1
      ⟨0, 0, "h", "t", some 50, Option.none, Option.none⟩ rfl rfl rfl
      (by rw [show (getConfidenceAdjustedThresholds c3scrape.priceConfidence
            PRICE_CHANGE_THRESHOLDS).base = (⟨some 1, some 0.5⟩ : PriceThresholds)
            from rfl]
          rw [show (⟨0, 0, "h", "t", some 50, Option.none, Option.none⟩ :
            Snapshot).priceValue = some 50 from rfl]
          rw [show c3scrape.priceValue = some 45 from rfl]
          rw [priceDelta_50_45])
  have hana : (analyzePriceChange (AiOutcome.response "significance: low")
      (computePriceDelta (⟨0, 0, "h", "t", some 50, Option.none,
        Option.none⟩ : Snapshot).priceValue c3scrape.priceValue
        (getConfidenceAdjustedThresholds c3scrape.priceConfidence
          PRICE_CHANGE_THRESHOLDS).base)).significance = "low" := rfl
  refine ⟨?_, ?_, by decide, by decide⟩
  · rw [hch]
    have : c3state.changes = [] := rfl
    rw [this]
    simp only [List.nil_append, List.map_cons, List.map_nil]
    rw [hsig, hana]
    rfl
  · rw [hpc]
    rfl


/-- Helper: with a previous snapshot, `checkPage` reports a price change
exactly when the confidence-adjusted gate allows alerting and the computed
delta is meaningful, regardless of the content comparison. -/
theorem checkPage_priceChange_isSome (st : MonitorState)
    (scrape : ScrapeResult) (ai : AiOutcome) (alertEmail : Option String)
    (notifySent : Bool) (now : Nat) (prev : Snapshot)
    (hprev : (snapshotsByCapturedDesc st.snapshots).head? = some prev) :
    (checkPage st scrape ai alertEmail notifySent now).2.priceChange.isSome =
      ((getConfidenceAdjustedThresholds scrape.priceConfidence
          PRICE_CHANGE_THRESHOLDS).shouldAlert &&
       (computePriceDelta prev.priceValue scrape.priceValue
          (getConfidenceAdjustedThresholds scrape.priceConfidence
            PRICE_CHANGE_THRESHOLDS).base).isMeaningful) := by
  simp only [checkPage, hprev]
  by_cases hcc : (prev.contentHash != scrape.contentHash) = true
  · by_cases hpc : ((getConfidenceAdjustedThresholds scrape.priceConfidence
        PRICE_CHANGE_THRESHOLDS).shouldAlert &&
       (computePriceDelta prev.priceValue scrape.priceValue
          (getConfidenceAdjustedThresholds scrape.priceConfidence
            PRICE_CHANGE_THRESHOLDS).base).isMeaningful) = true
    · simp [hcc, hpc]
    · rw [Bool.not_eq_true] at hpc
      simp [hcc, hpc]
  · rw [Bool.not_eq_true] at hcc
    by_cases hpc : ((getConfidenceAdjustedThresholds scrape.priceConfidence
        PRICE_CHANGE_THRESHOLDS).shouldAlert &&
       (computePriceDelta prev.priceValue scrape.priceValue
          (getConfidenceAdjustedThresholds scrape.priceConfidence
            PRICE_CHANGE_THRESHOLDS).base).isMeaningful) = true
    · simp [hcc, hpc]
    · rw [Bool.not_eq_true] at hpc
      simp [hcc, hpc]

/-- Helper: under the elevated low-confidence thresholds (5 percent, 2.00), a
move below both bounds is not meaningful. -/
theorem isMeaningful_below_strict_thresholds (oldP newP : ℚ) (ho : oldP ≠ 0)
    (hA : mathAbs (newP - oldP) < 2)
    (hP : mathAbs ((newP - oldP) / oldP * 100) < 5) :
    (computePriceDelta (some oldP) (some newP)
      (⟨some 5, some 2⟩ : PriceThresholds)).isMeaningful = false := by
  have h1 : ¬ (2 : ℚ) ≤ mathAbs (newP - oldP) := not_le.mpr hA
  have h2 : ¬ (5 : ℚ) ≤ mathAbs ((newP - oldP) / oldP * 100) := not_le.mpr hP
  simp [computePriceDelta, ho, h1, h2]

/-- Helper: under the base thresholds (1 percent, 0.50), any move of at least
one percent is meaningful. -/
theorem isMeaningful_of_percent (oldP newP : ℚ) (ho : oldP ≠ 0)
    (h1 : 1 ≤ mathAbs ((newP - oldP) / oldP * 100)) :
    (computePriceDelta (some oldP) (some newP)
      (⟨some 1, some 0.5⟩ : PriceThresholds)).isMeaningful = true := by
  simp [computePriceDelta, ho, h1]

/-- Helper: low confidence elevates the default thresholds to 5 percent and
2.00 while still allowing alerts. -/
theorem adjustedThresholds_low : getConfidenceAdjustedThresholds PriceConfidence.low
    PRICE_CHANGE_THRESHOLDS = ⟨some 5, some 2, true⟩ := by
  simp only [getConfidenceAdjustedThresholds, PRICE_CHANGE_THRESHOLDS,
    Option.getD, mathMax]
  norm_num

/-- C4: for prices moving less than 2.00 and less than five percent, a
low-confidence extraction never yields a `priceChange` alert from
`checkPage`, while the same movement at high confidence alerts whenever its
percent change is at least one percent. -/
theorem c4_confidence_gating (st : MonitorState) (scrape : ScrapeResult) (ai : AiOutcome)
    (alertEmail : Option String) (notifySent : Bool) (now : Nat)
    (prev : Snapshot) (oldP newP : ℚ)
    (hprev : (snapshotsByCapturedDesc st.snapshots).head? = some prev)
    (hop : prev.priceValue = some oldP)
    (hnp : scrape.priceValue = some newP)
    (ho : oldP ≠ 0)
    (hA : mathAbs (newP - oldP) < 2)
    (hP : mathAbs ((newP - oldP) / oldP * 100) < 5) :
    (checkPage st { scrape with priceConfidence := PriceConfidence.low }
      ai alertEmail notifySent now).2.priceChange = Option.none ∧
    (1 ≤ mathAbs ((newP - oldP) / oldP * 100) →
      (checkPage st { scrape with priceConfidence := PriceConfidence.high }
        ai alertEmail notifySent now).2.priceChange.isSome = true) := by
  constructor
  · have hiso := checkPage_priceChange_isSome st
      { scrape with priceConfidence := PriceConfidence.low }
      ai alertEmail notifySent now prev hprev
    have hgate : (checkPage st { scrape with priceConfidence := PriceConfidence.low }
        ai alertEmail notifySent now).2.priceChange.isSome = false := by
      rw [hiso]
      simp only [adjustedThresholds_low]
      rw [show ((⟨some 5, some 2, true⟩ : AdjustedThresholds)).base =
        (⟨some 5, some 2⟩ : PriceThresholds) from rfl]
      rw [hop, hnp]
      rw [isMeaningful_below_strict_thresholds oldP newP ho hA hP]
      rfl
    rcases h : (checkPage st { scrape with priceConfidence := PriceConfidence.low }
        ai alertEmail notifySent now).2.priceChange with _ | p
    · rfl
    · rw [h] at hgate
      cases hgate
  · intro h1
    have hiso := checkPage_priceChange_isSome st
      { scrape with priceConfidence := PriceConfidence.high }
      ai alertEmail notifySent now prev hprev
    rw [hiso]
    rw [show (getConfidenceAdjustedThresholds PriceConfidence.high
      PRICE_CHANGE_THRESHOLDS) = ⟨some 1, some 0.5, true⟩ from rfl]
    rw [show ((⟨some 1, some 0.5, true⟩ : AdjustedThresholds)).base =
      (⟨some 1, some 0.5⟩ : PriceThresholds) from rfl]
    rw [hop, hnp]
    rw [isMeaningful_of_percent oldP newP ho h1]
    rfl


/-- Helper: with a previous snapshot and changed content, `checkPage` takes
the content branch: it appends exactly one change record carrying the
analyzer text and a significance that is the analyzer verdict when
definitive, and the locally computed (possibly price-elevated) heuristic
significance otherwise. -/
theorem checkPage_content_spec (st : MonitorState) (scrape : ScrapeResult)
    (ai : AiOutcome) (alertEmail : Option String) (notifySent : Bool) (now : Nat)
    (prev : Snapshot)
    (hprev : (snapshotsByCapturedDesc st.snapshots).head? = some prev)
    (hhash : (prev.contentHash != scrape.contentHash) = true) :
    ∃ c : Change,
      (checkPage st scrape ai alertEmail notifySent now).1.changes =
        st.changes ++ [c] ∧
      (checkPage st scrape ai alertEmail notifySent now).2.change.isSome = true ∧
      c.aiAnalysis = (analyzeChanges ai).analysis ∧
      c.significance =
        (if (analyzeChanges ai).significance != "unknown" then
          (analyzeChanges ai).significance
        else
          (if ((getConfidenceAdjustedThresholds scrape.priceConfidence
                PRICE_CHANGE_THRESHOLDS).shouldAlert &&
              (computePriceDelta prev.priceValue scrape.priceValue
                (getConfidenceAdjustedThresholds scrape.priceConfidence
                  PRICE_CHANGE_THRESHOLDS).base).isMeaningful) &&
              (determineSignificance (compareSnapshots prev.textContent
                scrape.textContent) == "low") then "medium"
          else determineSignificance (compareSnapshots prev.textContent
            scrape.textContent))) := by
  simp only [checkPage, hprev, hhash, Bool.not_true, Bool.false_and,
    Bool.and_false, if_false, Bool.false_eq_true, ite_false]
  by_cases hn : (alertEmail.isSome && notifySent) = true
  · refine ⟨_, rfl, rfl, ?_, ?_⟩ <;> simp [hn]
  · rw [Bool.not_eq_true] at hn
    refine ⟨_, rfl, rfl, ?_, ?_⟩ <;> simp [hn]

/-- C7: a missing client or a thrown analyzer call degrades `analyzeChanges`
to significance `unknown` with a synthetic unavailable/failed text
instead of propagating the error, and `checkPage` still creates the detected
Change using the locally computed heuristic significance whenever the
analyzer verdict is `unknown`. -/
theorem c7_analyzer_degradation (message : String) (st : MonitorState) (scrape : ScrapeResult)
    (ai : AiOutcome) (alertEmail : Option String) (notifySent : Bool) (now : Nat)
    (prev : Snapshot)
    (hprev : (snapshotsByCapturedDesc st.snapshots).head? = some prev)
    (hhash : prev.contentHash ≠ scrape.contentHash)
    (hunknown : (analyzeChanges ai).significance = "unknown") :
    analyzeChanges AiOutcome.noClient =
      ⟨"AI analysis unavailable - API key not configured", "unknown"⟩ ∧
    analyzeChanges (AiOutcome.apiError message) =
      ⟨"AI analysis failed: " ++ message, "unknown"⟩ ∧
    ∃ c : Change,
      (checkPage st scrape ai alertEmail notifySent now).1.changes =
        st.changes ++ [c] ∧
      (checkPage st scrape ai alertEmail notifySent now).2.change.isSome = true ∧
      c.aiAnalysis = (analyzeChanges ai).analysis ∧
      c.significance =
        (if ((getConfidenceAdjustedThresholds scrape.priceConfidence
              PRICE_CHANGE_THRESHOLDS).shouldAlert &&
            (computePriceDelta prev.priceValue scrape.priceValue
              (getConfidenceAdjustedThresholds scrape.priceConfidence
                PRICE_CHANGE_THRESHOLDS).base).isMeaningful) &&
            (determineSignificance (compareSnapshots prev.textContent
              scrape.textContent) == "low") then "medium"
        else determineSignificance (compareSnapshots prev.textContent
          scrape.textContent)) := by
  refine ⟨rfl, rfl, ?_⟩
  obtain ⟨c, hch, hcs, hai, hsig⟩ :=
    checkPage_content_spec st scrape ai alertEmail notifySent now prev
      hprev (bne_iff_ne.mpr hhash)
  refine ⟨c, hch, hcs, hai, ?_⟩
  rw [hsig, hunknown]
  rfl


/-- C2 amended witness: the amended retention theorem applied to a concrete
ten-snapshot store and a changed scrape, whose check does report a change. -/
theorem c2_amended_witness :
    (checkPage c2state c2scrapeChanged AiOutcome.noClient Option.none false
        10).1.snapshots.length ≤ 10 ∧
    ∃ s ∈ (checkPage c2state c2scrapeChanged AiOutcome.noClient Option.none
        false 10).1.snapshots,
      s.id = c2state.nextSnapshotId ∧ s.capturedAt = 10 :=
  c2_amended c2state c2scrapeChanged AiOutcome.noClient Option.none false 10
    (by decide) (by decide) (by decide) (Or.inl (by decide))

/-- C3 amended witness: the amended price-drop theorem applied to a concrete
store with the analyzer unavailable. -/
theorem c3_amended_witness :
    ∃ c : Change,
      (checkPage c3state c3scrape AiOutcome.noClient Option.none false
        1).1.changes = c3state.changes ++ [c] ∧
      (checkPage c3state c3scrape AiOutcome.noClient Option.none false
        1).2.priceChange.isSome = true ∧
      c.changeType = "PRICE_CHANGE" ∧
      c.oldPrice = some 50 ∧
      c.newPrice = some 45 ∧
      c.significance =
        (if (analyzePriceChange AiOutcome.noClient (computePriceDelta (some 50)
            (some 45) PRICE_CHANGE_THRESHOLDS)).significance != "unknown" then
          (analyzePriceChange AiOutcome.noClient (computePriceDelta (some 50)
            (some 45) PRICE_CHANGE_THRESHOLDS)).significance
        else "medium") ∧
      ((analyzePriceChange AiOutcome.noClient (computePriceDelta (some 50)
          (some 45) PRICE_CHANGE_THRESHOLDS)).significance ≠ "low" →
        (c.significance = "medium" ∨ c.significance = "high")) :=
  c3_amended c3state c3scrape AiOutcome.noClient Option.none false 1
    ⟨0, 0, "h", "t", some 50, Option.none, Option.none⟩ rfl rfl rfl rfl rfl

/-- C4 witness: the gating theorem applied to a concrete 100.00 to 98.50 move
(1.50, 1.5 percent). -/
theorem c4_confidence_gating_witness :
    (checkPage c4state { c4scrape with priceConfidence := PriceConfidence.low }
      AiOutcome.noClient Option.none false 1).2.priceChange = Option.none ∧
    (1 ≤ mathAbs (((98.5 : ℚ) - 100) / 100 * 100) →
      (checkPage c4state { c4scrape with priceConfidence := PriceConfidence.high }
        AiOutcome.noClient Option.none false 1).2.priceChange.isSome = true) :=
  c4_confidence_gating c4state c4scrape AiOutcome.noClient Option.none false 1
    ⟨0, 0, "h", "t", some 100, Option.none, Option.none⟩ 100 98.5
    rfl rfl rfl (by norm_num) (by norm_num [mathAbs]) (by norm_num [mathAbs])

/-- C7 witness: the degradation theorem applied to a concrete store with
changed content and no configured analyzer client. -/
theorem c7_analyzer_degradation_witness :
    analyzeChanges AiOutcome.noClient =
      ⟨"AI analysis unavailable - API key not configured", "unknown"⟩ ∧
    analyzeChanges (AiOutcome.apiError "boom") =
      ⟨"AI analysis failed: " ++ "boom", "unknown"⟩ ∧
    ∃ c : Change,
      (checkPage c7state c7scrape AiOutcome.noClient Option.none false
        1).1.changes = c7state.changes ++ [c] ∧
      (checkPage c7state c7scrape AiOutcome.noClient Option.none false
        1).2.change.isSome = true ∧
      c.aiAnalysis = (analyzeChanges AiOutcome.noClient).analysis ∧
      c.significance =
        (if ((getConfidenceAdjustedThresholds c7scrape.priceConfidence
              PRICE_CHANGE_THRESHOLDS).shouldAlert &&
            (computePriceDelta (⟨0, 0, "h", "a", Option.none, Option.none,
              Option.none⟩ : Snapshot).priceValue c7scrape.priceValue
              (getConfidenceAdjustedThresholds c7scrape.priceConfidence
                PRICE_CHANGE_THRESHOLDS).base).isMeaningful) &&
            (determineSignificance (compareSnapshots (⟨0, 0, "h", "a",
              Option.none, Option.none, Option.none⟩ : Snapshot).textContent
              c7scrape.textContent) == "low") then "medium"
        else determineSignificance (compareSnapshots (⟨0, 0, "h", "a",
          Option.none, Option.none, Option.none⟩ : Snapshot).textContent
          c7scrape.textContent)) :=
  c7_analyzer_degradation "boom" c7state c7scrape AiOutcome.noClient Option.none false 1
    ⟨0, 0, "h", "a", Option.none, Option.none, Option.none⟩ rfl (by decide) rfl


end CompetitorIntel
